import Mathlib

/-!
# DCAM-API 4 header (`dcamapi4.h`): result codes, structures, prototypes

A verification development over the declarations of
`src/model/devices/camera/Hamamatsu/documentation/dcamapi4.h`.
Enumerations are lists of named values, structures are lists of typed members,
prototypes are lists of typed parameters, all in source order; the two
preprocessor branches of the header are functions of a build configuration.
-/

namespace Dcam

/-! ## Result codes (`DCAMERR`, lines 89-228) and the helper `failed` (lines 1122-1125) -/

/-- The enumerators of `DCAMERR` in source order, each with the value of its initializer. -/
def DCAMERR_enumerators : List (String × Nat) := [
  ("DCAMERR_BUSY", 0x80000101),
  ("DCAMERR_NOTREADY", 0x80000103),
  ("DCAMERR_NOTSTABLE", 0x80000104),
  ("DCAMERR_UNSTABLE", 0x80000105),
  ("DCAMERR_NOTBUSY", 0x80000107),
  ("DCAMERR_EXCLUDED", 0x80000110),
  ("DCAMERR_COOLINGTROUBLE", 0x80000302),
  ("DCAMERR_NOTRIGGER", 0x80000303),
  ("DCAMERR_TEMPERATURE_TROUBLE", 0x80000304),
  ("DCAMERR_TOOFREQUENTTRIGGER", 0x80000305),
  ("DCAMERR_ABORT", 0x80000102),
  ("DCAMERR_TIMEOUT", 0x80000106),
  ("DCAMERR_LOSTFRAME", 0x80000301),
  ("DCAMERR_MISSINGFRAME_TROUBLE", 0x80000f06),
  ("DCAMERR_INVALIDIMAGE", 0x80000321),
  ("DCAMERR_NORESOURCE", 0x80000201),
  ("DCAMERR_NOMEMORY", 0x80000203),
  ("DCAMERR_NOMODULE", 0x80000204),
  ("DCAMERR_NODRIVER", 0x80000205),
  ("DCAMERR_NOCAMERA", 0x80000206),
  ("DCAMERR_NOGRABBER", 0x80000207),
  ("DCAMERR_NOCOMBINATION", 0x80000208),
  ("DCAMERR_FAILOPEN", 0x80001001),
  ("DCAMERR_FRAMEGRABBER_NEEDS_FIRMWAREUPDATE", 0x80001002),
  ("DCAMERR_INVALIDMODULE", 0x80000211),
  ("DCAMERR_INVALIDCOMMPORT", 0x80000212),
  ("DCAMERR_FAILOPENBUS", 0x81001001),
  ("DCAMERR_FAILOPENCAMERA", 0x82001001),
  ("DCAMERR_DEVICEPROBLEM", 0x82001002),
  ("DCAMERR_INVALIDCAMERA", 0x80000806),
  ("DCAMERR_INVALIDHANDLE", 0x80000807),
  ("DCAMERR_INVALIDPARAM", 0x80000808),
  ("DCAMERR_INVALIDVALUE", 0x80000821),
  ("DCAMERR_OUTOFRANGE", 0x80000822),
  ("DCAMERR_NOTWRITABLE", 0x80000823),
  ("DCAMERR_NOTREADABLE", 0x80000824),
  ("DCAMERR_INVALIDPROPERTYID", 0x80000825),
  ("DCAMERR_NEWAPIREQUIRED", 0x80000826),
  ("DCAMERR_WRONGHANDSHAKE", 0x80000827),
  ("DCAMERR_NOPROPERTY", 0x80000828),
  ("DCAMERR_INVALIDCHANNEL", 0x80000829),
  ("DCAMERR_INVALIDVIEW", 0x8000082a),
  ("DCAMERR_INVALIDSUBARRAY", 0x8000082b),
  ("DCAMERR_ACCESSDENY", 0x8000082c),
  ("DCAMERR_NOVALUETEXT", 0x8000082d),
  ("DCAMERR_WRONGPROPERTYVALUE", 0x8000082e),
  ("DCAMERR_DISHARMONY", 0x80000830),
  ("DCAMERR_FRAMEBUNDLESHOULDBEOFF", 0x80000832),
  ("DCAMERR_INVALIDFRAMEINDEX", 0x80000833),
  ("DCAMERR_INVALIDSESSIONINDEX", 0x80000834),
  ("DCAMERR_NOCORRECTIONDATA", 0x80000838),
  ("DCAMERR_CHANNELDEPENDENTVALUE", 0x80000839),
  ("DCAMERR_VIEWDEPENDENTVALUE", 0x8000083a),
  ("DCAMERR_NODEVICEBUFFER", 0x8000083b),
  ("DCAMERR_REQUIREDSNAP", 0x8000083c),
  ("DCAMERR_LESSSYSTEMMEMORY", 0x8000083f),
  ("DCAMERR_NOTSUPPORT", 0x80000f03),
  ("DCAMERR_FAILREADCAMERA", 0x83001002),
  ("DCAMERR_FAILWRITECAMERA", 0x83001003),
  ("DCAMERR_CONFLICTCOMMPORT", 0x83001004),
  ("DCAMERR_OPTICS_UNPLUGGED", 0x83001005),
  ("DCAMERR_FAILCALIBRATION", 0x83001006),
  ("DCAMERR_MISMATCH_CONFIGURATION", 0x83001011),
  ("DCAMERR_INVALIDMEMBER_3", 0x84000103),
  ("DCAMERR_INVALIDMEMBER_5", 0x84000105),
  ("DCAMERR_INVALIDMEMBER_7", 0x84000107),
  ("DCAMERR_INVALIDMEMBER_8", 0x84000108),
  ("DCAMERR_INVALIDMEMBER_9", 0x84000109),
  ("DCAMERR_FAILEDOPENRECFILE", 0x84001001),
  ("DCAMERR_INVALIDRECHANDLE", 0x84001002),
  ("DCAMERR_FAILEDWRITEDATA", 0x84001003),
  ("DCAMERR_FAILEDREADDATA", 0x84001004),
  ("DCAMERR_NOWRECORDING", 0x84001005),
  ("DCAMERR_WRITEFULL", 0x84001006),
  ("DCAMERR_ALREADYOCCUPIED", 0x84001007),
  ("DCAMERR_TOOLARGEUSERDATASIZE", 0x84001008),
  ("DCAMERR_INVALIDWAITHANDLE", 0x84002001),
  ("DCAMERR_NEWRUNTIMEREQUIRED", 0x84002002),
  ("DCAMERR_VERSIONMISMATCH", 0x84002003),
  ("DCAMERR_RUNAS_FACTORYMODE", 0x84002004),
  ("DCAMERR_IMAGE_UNKNOWNSIGNATURE", 0x84003001),
  ("DCAMERR_IMAGE_NEWRUNTIMEREQUIRED", 0x84003002),
  ("DCAMERR_IMAGE_ERRORSTATUSEXIST", 0x84003003),
  ("DCAMERR_IMAGE_HEADERCORRUPTED", 0x84004004),
  ("DCAMERR_IMAGE_BROKENCONTENT", 0x84004005),
  ("DCAMERR_UNKNOWNMSGID", 0x80000801),
  ("DCAMERR_UNKNOWNSTRID", 0x80000802),
  ("DCAMERR_UNKNOWNPARAMID", 0x80000803),
  ("DCAMERR_UNKNOWNBITSTYPE", 0x80000804),
  ("DCAMERR_UNKNOWNDATATYPE", 0x80000805),
  ("DCAMERR_NONE", 0),
  ("DCAMERR_INSTALLATIONINPROGRESS", 0x80000f00),
  ("DCAMERR_UNREACH", 0x80000f01),
  ("DCAMERR_UNLOADED", 0x80000f04),
  ("DCAMERR_THRUADAPTER", 0x80000f05),
  ("DCAMERR_NOCONNECTION", 0x80000f07),
  ("DCAMERR_NOTIMPLEMENT", 0x80000f02),
  ("DCAMERR_DELAYEDFRAME", 0x80000f09),
  ("DCAMERR_DEVICEINITIALIZING", 0xb0000001),
  ("DCAMERR_APIINIT_INITOPTIONBYTES", 0xa4010003),
  ("DCAMERR_APIINIT_INITOPTION", 0xa4010004),
  ("DCAMERR_INITOPTION_COLLISION_BASE", 0xa401C000),
  ("DCAMERR_INITOPTION_COLLISION_MAX", 0xa401FFFF),
  ("DCAMERR_MISSPROP_TRIGGERSOURCE", 0xE0100110),
  ("DCAMERR_SUCCESS", 1)
]

/-- Value of `DCAMERR_NONE` (line 201). -/
def DCAMERR_NONE : Nat := 0

/-- Value of `DCAMERR_SUCCESS` (line 226). -/
def DCAMERR_SUCCESS : Nat := 1

/-- The conversion `int(err)`: the low 32 bits of the code read in two's complement. -/
def toInt32 (n : Nat) : Int :=
  if n % 2 ^ 32 < 2 ^ 31 then ((n % 2 ^ 32 : Nat) : Int) else ((n % 2 ^ 32 : Nat) : Int) - 2 ^ 32

/-- The helper `inline int failed( DCAMERR err ) { return int(err) < 0; }`:
the comparison yields 1 when it holds and 0 otherwise. -/
def failed (err : Nat) : Int :=
  if toInt32 err < 0 then 1 else 0


/-- Value of `DCAMERR_INITOPTION_COLLISION_BASE` (line 217). -/
def DCAMERR_INITOPTION_COLLISION_BASE : Nat := 0xa401C000

/-- Value of `DCAMERR_INITOPTION_COLLISION_MAX` (line 218). -/
def DCAMERR_INITOPTION_COLLISION_MAX : Nat := 0xa401FFFF

/-! ## Flag and option enumerations

Each enumerator is the value of its initializer; an initializer that names another
enumerator is that enumerator; an enumerator without initializer is one more than its
predecessor. -/

/-- An enumerator in an enumeration listed as a whole: its name, its value, and whether
the source gives the value by an initializer. -/
structure Enumerator where
  name : String
  value : Nat
  explicit : Bool
deriving DecidableEq

/-! ### `enum DCAMBUF_FRAME_OPTION` (lines 230-246) -/

def DCAMBUF_FRAME_OPTION__VIEW_ALL : Nat := 0x00000000
def DCAMBUF_FRAME_OPTION__VIEW_1 : Nat := 0x00100000
def DCAMBUF_FRAME_OPTION__VIEW_2 : Nat := 0x00200000
def DCAMBUF_FRAME_OPTION__VIEW_3 : Nat := 0x00300000
def DCAMBUF_FRAME_OPTION__VIEW_4 : Nat := 0x00400000
def DCAMBUF_FRAME_OPTION__PROC_HIGHCONTRAST : Nat := 0x00000010
def DCAMBUF_FRAME_OPTION__VIEW__STEP : Nat := 0x00100000
def DCAMBUF_FRAME_OPTION__VIEW__MASK : Nat := 0x00F00000
def DCAMBUF_FRAME_OPTION__PROC__MASK : Nat := 0x00000FF0
/-- Enumerator without initializer (line 244): one more than its predecessor. -/
def end_of_dcambuf_frame_option : Nat := DCAMBUF_FRAME_OPTION__PROC__MASK + 1

/-! ### `enum DCAMREC_FRAME_OPTION` (lines 248-264) -/

def DCAMREC_FRAME_OPTION__VIEW_CURRENT : Nat := 0x00000000
def DCAMREC_FRAME_OPTION__VIEW_1 : Nat := 0x00100000
def DCAMREC_FRAME_OPTION__VIEW_2 : Nat := 0x00200000
def DCAMREC_FRAME_OPTION__VIEW_3 : Nat := 0x00300000
def DCAMREC_FRAME_OPTION__VIEW_4 : Nat := 0x00400000
def DCAMREC_FRAME_OPTION__PROC_HIGHCONTRAST : Nat := 0x00000010
def DCAMREC_FRAME_OPTION__VIEW__STEP : Nat := 0x00100000
def DCAMREC_FRAME_OPTION__VIEW__MASK : Nat := 0x00F00000
def DCAMREC_FRAME_OPTION__PROC__MASK : Nat := 0x00000FF0
/-- Enumerator without initializer (line 262): one more than its predecessor. -/
def endof_dcamrec_frame_option : Nat := DCAMREC_FRAME_OPTION__PROC__MASK + 1

/-! ### `enum DCAMBUF_METADATAOPTION` (lines 266-276) -/

def DCAMBUF_METADATAOPTION__VIEW_ALL : Nat := DCAMBUF_FRAME_OPTION__VIEW_ALL
def DCAMBUF_METADATAOPTION__VIEW_1 : Nat := DCAMBUF_FRAME_OPTION__VIEW_1
def DCAMBUF_METADATAOPTION__VIEW_2 : Nat := DCAMBUF_FRAME_OPTION__VIEW_2
def DCAMBUF_METADATAOPTION__VIEW_3 : Nat := DCAMBUF_FRAME_OPTION__VIEW_3
def DCAMBUF_METADATAOPTION__VIEW_4 : Nat := DCAMBUF_FRAME_OPTION__VIEW_4
def DCAMBUF_METADATAOPTION__VIEW__STEP : Nat := DCAMBUF_FRAME_OPTION__VIEW__STEP
def DCAMBUF_METADATAOPTION__VIEW__MASK : Nat := DCAMBUF_FRAME_OPTION__VIEW__MASK

/-! ### `enum DCAMWAIT_EVENT` (lines 334-353) -/

def DCAMWAIT_CAPEVENT_TRANSFERRED : Nat := 0x0001
def DCAMWAIT_CAPEVENT_FRAMEREADY : Nat := 0x0002
def DCAMWAIT_CAPEVENT_CYCLEEND : Nat := 0x0004
def DCAMWAIT_CAPEVENT_EXPOSUREEND : Nat := 0x0008
def DCAMWAIT_CAPEVENT_STOPPED : Nat := 0x0010
def DCAMWAIT_CAPEVENT_RELOADFRAME : Nat := 0x0020
def DCAMWAIT_RECEVENT_STOPPED : Nat := 0x0100
def DCAMWAIT_RECEVENT_WARNING : Nat := 0x0200
def DCAMWAIT_RECEVENT_MISSED : Nat := 0x0400
def DCAMWAIT_RECEVENT_DISKFULL : Nat := 0x1000
def DCAMWAIT_RECEVENT_WRITEFAULT : Nat := 0x2000
def DCAMWAIT_RECEVENT_SKIPPED : Nat := 0x4000
def DCAMWAIT_RECEVENT_WRITEFRAME : Nat := 0x8000
/-- Enumerator without initializer (line 351): one more than its predecessor. -/
def end_of_dcamwait_event : Nat := DCAMWAIT_RECEVENT_WRITEFRAME + 1

/-- The enumerators of `DCAMWAIT_EVENT` in source order: name, value, and whether the
source gives the value by an initializer. -/
def DCAMWAIT_EVENT_enumerators : List Enumerator := [
  ⟨"DCAMWAIT_CAPEVENT_TRANSFERRED", DCAMWAIT_CAPEVENT_TRANSFERRED, true⟩,
  ⟨"DCAMWAIT_CAPEVENT_FRAMEREADY", DCAMWAIT_CAPEVENT_FRAMEREADY, true⟩,
  ⟨"DCAMWAIT_CAPEVENT_CYCLEEND", DCAMWAIT_CAPEVENT_CYCLEEND, true⟩,
  ⟨"DCAMWAIT_CAPEVENT_EXPOSUREEND", DCAMWAIT_CAPEVENT_EXPOSUREEND, true⟩,
  ⟨"DCAMWAIT_CAPEVENT_STOPPED", DCAMWAIT_CAPEVENT_STOPPED, true⟩,
  ⟨"DCAMWAIT_CAPEVENT_RELOADFRAME", DCAMWAIT_CAPEVENT_RELOADFRAME, true⟩,
  ⟨"DCAMWAIT_RECEVENT_STOPPED", DCAMWAIT_RECEVENT_STOPPED, true⟩,
  ⟨"DCAMWAIT_RECEVENT_WARNING", DCAMWAIT_RECEVENT_WARNING, true⟩,
  ⟨"DCAMWAIT_RECEVENT_MISSED", DCAMWAIT_RECEVENT_MISSED, true⟩,
  ⟨"DCAMWAIT_RECEVENT_DISKFULL", DCAMWAIT_RECEVENT_DISKFULL, true⟩,
  ⟨"DCAMWAIT_RECEVENT_WRITEFAULT", DCAMWAIT_RECEVENT_WRITEFAULT, true⟩,
  ⟨"DCAMWAIT_RECEVENT_SKIPPED", DCAMWAIT_RECEVENT_SKIPPED, true⟩,
  ⟨"DCAMWAIT_RECEVENT_WRITEFRAME", DCAMWAIT_RECEVENT_WRITEFRAME, true⟩,
  ⟨"end_of_dcamwait_event", end_of_dcamwait_event, false⟩]

/-! ### `enum DCAMBUF_METADATAKIND` (lines 413-420) -/

def DCAMBUF_METADATAKIND_TIMESTAMPS : Nat := 0x00010000
def DCAMBUF_METADATAKIND_FRAMESTAMPS : Nat := 0x00020000
/-- Enumerator without initializer (line 418): one more than its predecessor. -/
def end_of_dcambuf_metadatakind : Nat := DCAMBUF_METADATAKIND_FRAMESTAMPS + 1

/-! ### `enum DCAMREC_METADATAKIND` (lines 422-431) -/

def DCAMREC_METADATAKIND_USERDATATEXT : Nat := 0x00000001
def DCAMREC_METADATAKIND_USERDATABIN : Nat := 0x00000002
def DCAMREC_METADATAKIND_TIMESTAMPS : Nat := 0x00010000
def DCAMREC_METADATAKIND_FRAMESTAMPS : Nat := 0x00020000
/-- Enumerator without initializer (line 429): one more than its predecessor. -/
def end_of_dcamrec_metadatakind : Nat := DCAMREC_METADATAKIND_FRAMESTAMPS + 1

/-! ### `enum DCAMDATA_OPTION` (lines 435-446) -/

def DCAMDATA_OPTION__VIEW_ALL : Nat := DCAMBUF_FRAME_OPTION__VIEW_ALL
def DCAMDATA_OPTION__VIEW_1 : Nat := DCAMBUF_FRAME_OPTION__VIEW_1
def DCAMDATA_OPTION__VIEW_2 : Nat := DCAMBUF_FRAME_OPTION__VIEW_2
def DCAMDATA_OPTION__VIEW_3 : Nat := DCAMBUF_FRAME_OPTION__VIEW_3
def DCAMDATA_OPTION__VIEW_4 : Nat := DCAMBUF_FRAME_OPTION__VIEW_4
def DCAMDATA_OPTION__VIEW__STEP : Nat := DCAMBUF_FRAME_OPTION__VIEW__STEP
def DCAMDATA_OPTION__VIEW__MASK : Nat := DCAMBUF_FRAME_OPTION__VIEW__MASK

/-! ### `enum DCAMDATA_ATTRIBUTE` (lines 459-468) -/

def DCAMDATA_ATTRIBUTE__ACCESSREADY : Nat := 0x01000000
def DCAMDATA_ATTRIBUTE__ACCESSBUSY : Nat := 0x02000000
def DCAMDATA_ATTRIBUTE__HASVIEW : Nat := 0x10000000
def DCAMDATA_ATTRIBUTE__MASK : Nat := 0xFF000000

/-! ### `enum DCAMDATA_REGIONTYPE` (lines 471-485) -/

def DCAMDATA_REGIONTYPE__BYTEMASK : Nat := 0x00000001
def DCAMDATA_REGIONTYPE__RECT16ARRAY : Nat := 0x00000002
def DCAMDATA_REGIONTYPE__ACCESSREADY : Nat := DCAMDATA_ATTRIBUTE__ACCESSREADY
def DCAMDATA_REGIONTYPE__ACCESSBUSY : Nat := DCAMDATA_ATTRIBUTE__ACCESSBUSY
def DCAMDATA_REGIONTYPE__HASVIEW : Nat := DCAMDATA_ATTRIBUTE__HASVIEW
def DCAMDATA_REGIONTYPE__BODYMASK : Nat := 0x00FFFFFF
def DCAMDATA_REGIONTYPE__ATTRIBUTEMASK : Nat := DCAMDATA_ATTRIBUTE__MASK
def DCAMDATA_REGIONTYPE__NONE : Nat := 0x00000000

/-! ### `enum DCAMDATA_LUTTYPE` (lines 488-501) -/

def DCAMDATA_LUTTYPE__SEGMENTED_LINEAR : Nat := 0x00000001
def DCAMDATA_LUTTYPE__MONO16 : Nat := 0x00000002
def DCAMDATA_LUTTYPE__ACCESSREADY : Nat := DCAMDATA_ATTRIBUTE__ACCESSREADY
def DCAMDATA_LUTTYPE__ACCESSBUSY : Nat := DCAMDATA_ATTRIBUTE__ACCESSBUSY
def DCAMDATA_LUTTYPE__BODYMASK : Nat := 0x00FFFFFF
def DCAMDATA_LUTTYPE__ATTRIBUTEMASK : Nat := DCAMDATA_ATTRIBUTE__MASK
def DCAMDATA_LUTTYPE__NONE : Nat := 0x00000000

/-! ### `enum DCAMBUF_PROCTYPE` (lines 504-510) -/

def DCAMBUF_PROCTYPE__HIGHCONTRASTMODE : Nat := DCAMBUF_FRAME_OPTION__PROC_HIGHCONTRAST
def DCAMBUF_PROCTYPE__NONE : Nat := 0x00000000

/-- The bitwise OR of a list of values. -/
def orAll : List Nat → Nat
  | [] => 0
  | v :: vs => v ||| orAll vs

/-! ## Build configuration -/

/-- The preprocessor symbols the header tests: each field says whether the symbol is
defined. `DCAMAPI_VER` is left at the header's default `4000` (lines 13-15), so the
`#if DCAMAPI_VER >= 4000` section (lines 399-1111) is present. -/
structure BuildConfig where
  _WIN32 : Bool
  WIN32 : Bool
  UNICODE : Bool
  _UNICODE : Bool
  __cplusplus : Bool
deriving DecidableEq

/-- The condition `defined(_WIN32) || defined(WIN32)` of lines 824 and 1060. -/
def isWindows (cfg : BuildConfig) : Bool := cfg._WIN32 || cfg.WIN32

/-- The condition `defined(UNICODE) || defined(_UNICODE)` of line 1064. -/
def isUnicode (cfg : BuildConfig) : Bool := cfg.UNICODE || cfg._UNICODE

/-! ## C types -/

/-- The C types that occur in the header's structures and prototypes. `int32` and `_ui32`
are the typedefs of lines 69-75; `struct tag` names a structure by its tag, whether or not
the header defines it. -/
inductive CType where
  | void
  | char
  | uchar
  | short
  | ushort
  | wchar_t
  | int32
  | ui32
  | double
  | enum (tag : String)
  | struct (tag : String)
  | const (t : CType)
  | ptr (t : CType)
  | array (t : CType) (n : Nat)
deriving DecidableEq

/-- The handle `typedef struct tag_dcam* HDCAM;` (line 55). -/
def HDCAM : CType := .ptr (.struct "tag_dcam")

/-- The handle `typedef struct DCAMWAIT* HDCAMWAIT;` (line 562). -/
def HDCAMWAIT : CType := .ptr (.struct "DCAMWAIT")

/-- The handle `typedef struct DCAMREC* HDCAMREC;` (line 563). -/
def HDCAMREC : CType := .ptr (.struct "DCAMREC")

/-- A structure member: its type and its name, as written in the source. -/
structure Member where
  type : CType
  name : String
deriving DecidableEq

/-- A structure declaration: its tag and its members in source order. -/
structure StructDecl where
  tag : String
  members : List Member
deriving DecidableEq

/-! ## Structures (lines 565-1008 and 1089-1109) -/

/-- Declaration of `struct DCAM_GUID` (lines 565-572). -/
def DCAM_GUID : StructDecl := ⟨"DCAM_GUID", [
  ⟨.ui32, "Data1"⟩,
  ⟨.ushort, "Data2"⟩,
  ⟨.ushort, "Data3"⟩,
  ⟨(.array .uchar 8), "Data4"⟩]⟩

/-- Declaration of `struct DCAMAPI_INIT` (lines 574-583). -/
def DCAMAPI_INIT : StructDecl := ⟨"DCAMAPI_INIT", [
  ⟨.int32, "size"⟩,
  ⟨.int32, "iDeviceCount"⟩,
  ⟨.int32, "reserved"⟩,
  ⟨.int32, "initoptionbytes"⟩,
  ⟨(.ptr (.const .int32)), "initoption"⟩,
  ⟨(.ptr (.const (.struct "DCAM_GUID"))), "guid"⟩]⟩

/-- Declaration of `struct DCAMDEV_OPEN` (lines 585-591). -/
def DCAMDEV_OPEN : StructDecl := ⟨"DCAMDEV_OPEN", [
  ⟨.int32, "size"⟩,
  ⟨.int32, "index"⟩,
  ⟨HDCAM, "hdcam"⟩]⟩

/-- Declaration of `struct DCAMDEV_CAPABILITY` (lines 593-600). -/
def DCAMDEV_CAPABILITY : StructDecl := ⟨"DCAMDEV_CAPABILITY", [
  ⟨.int32, "size"⟩,
  ⟨.int32, "domain"⟩,
  ⟨.int32, "capflag"⟩,
  ⟨.int32, "kind"⟩]⟩

/-- Declaration of `struct DCAMDEV_CAPABILITY_LUT` (lines 602-611). -/
def DCAMDEV_CAPABILITY_LUT : StructDecl := ⟨"DCAMDEV_CAPABILITY_LUT", [
  ⟨(.struct "DCAMDEV_CAPABILITY"), "hdr"⟩,
  ⟨.int32, "linearpointmax"⟩]⟩

/-- Declaration of `struct DCAMDEV_CAPABILITY_REGION` (lines 613-623). -/
def DCAMDEV_CAPABILITY_REGION : StructDecl := ⟨"DCAMDEV_CAPABILITY_REGION", [
  ⟨(.struct "DCAMDEV_CAPABILITY"), "hdr"⟩,
  ⟨.int32, "horzunit"⟩,
  ⟨.int32, "vertunit"⟩]⟩

/-- Declaration of `struct DCAMDEV_CAPABILITY_FRAMEOPTION` (lines 625-634). -/
def DCAMDEV_CAPABILITY_FRAMEOPTION : StructDecl := ⟨"DCAMDEV_CAPABILITY_FRAMEOPTION", [
  ⟨(.struct "DCAMDEV_CAPABILITY"), "hdr"⟩,
  ⟨.int32, "supportproc"⟩]⟩

/-- Declaration of `struct DCAMDEV_STRING` (lines 636-643). -/
def DCAMDEV_STRING : StructDecl := ⟨"DCAMDEV_STRING", [
  ⟨.int32, "size"⟩,
  ⟨.int32, "iString"⟩,
  ⟨(.ptr .char), "text"⟩,
  ⟨.int32, "textbytes"⟩]⟩

/-- Declaration of `struct DCAMDATA_HDR` (lines 645-652). -/
def DCAMDATA_HDR : StructDecl := ⟨"DCAMDATA_HDR", [
  ⟨.int32, "size"⟩,
  ⟨.int32, "iKind"⟩,
  ⟨.int32, "option"⟩,
  ⟨.int32, "reserved2"⟩]⟩

/-- Declaration of `struct DCAMDATA_REGION` (lines 654-664). -/
def DCAMDATA_REGION : StructDecl := ⟨"DCAMDATA_REGION", [
  ⟨(.struct "DCAMDATA_HDR"), "hdr"⟩,
  ⟨.int32, "option"⟩,
  ⟨.int32, "type"⟩,
  ⟨(.ptr .void), "data"⟩,
  ⟨.int32, "datasize"⟩,
  ⟨.int32, "reserved"⟩]⟩

/-- Declaration of `struct DCAMDATA_REGIONRECT` (lines 666-673). -/
def DCAMDATA_REGIONRECT : StructDecl := ⟨"DCAMDATA_REGIONRECT", [
  ⟨.short, "left"⟩,
  ⟨.short, "top"⟩,
  ⟨.short, "right"⟩,
  ⟨.short, "bottom"⟩]⟩

/-- Declaration of `struct DCAMDATA_LUT` (lines 675-685). -/
def DCAMDATA_LUT : StructDecl := ⟨"DCAMDATA_LUT", [
  ⟨(.struct "DCAMDATA_HDR"), "hdr"⟩,
  ⟨.int32, "type"⟩,
  ⟨.int32, "page"⟩,
  ⟨(.ptr .void), "data"⟩,
  ⟨.int32, "datasize"⟩,
  ⟨.int32, "reserved"⟩]⟩

/-- Declaration of `struct DCAMDATA_LINEARLUT` (lines 687-692). -/
def DCAMDATA_LINEARLUT : StructDecl := ⟨"DCAMDATA_LINEARLUT", [
  ⟨.int32, "lutin"⟩,
  ⟨.int32, "lutout"⟩]⟩

/-- Declaration of `struct DCAMPROP_ATTR` (lines 694-721). -/
def DCAMPROP_ATTR : StructDecl := ⟨"DCAMPROP_ATTR", [
  ⟨.int32, "cbSize"⟩,
  ⟨.int32, "iProp"⟩,
  ⟨.int32, "option"⟩,
  ⟨.int32, "iReserved1"⟩,
  ⟨.int32, "attribute"⟩,
  ⟨.int32, "iGroup"⟩,
  ⟨.int32, "iUnit"⟩,
  ⟨.int32, "attribute2"⟩,
  ⟨.double, "valuemin"⟩,
  ⟨.double, "valuemax"⟩,
  ⟨.double, "valuestep"⟩,
  ⟨.double, "valuedefault"⟩,
  ⟨.int32, "nMaxChannel"⟩,
  ⟨.int32, "iReserved3"⟩,
  ⟨.int32, "nMaxView"⟩,
  ⟨.int32, "iProp_NumberOfElement"⟩,
  ⟨.int32, "iProp_ArrayBase"⟩,
  ⟨.int32, "iPropStep_Element"⟩]⟩

/-- Declaration of `struct DCAMPROP_VALUETEXT` (lines 723-731). -/
def DCAMPROP_VALUETEXT : StructDecl := ⟨"DCAMPROP_VALUETEXT", [
  ⟨.int32, "cbSize"⟩,
  ⟨.int32, "iProp"⟩,
  ⟨.double, "value"⟩,
  ⟨(.ptr .char), "text"⟩,
  ⟨.int32, "textbytes"⟩]⟩

/-- Declaration of `struct DCAMBUF_ATTACH` (lines 733-740). -/
def DCAMBUF_ATTACH : StructDecl := ⟨"DCAMBUF_ATTACH", [
  ⟨.int32, "size"⟩,
  ⟨.int32, "iKind"⟩,
  ⟨(.ptr (.ptr .void)), "buffer"⟩,
  ⟨.int32, "buffercount"⟩]⟩

/-- Declaration of `struct DCAM_TIMESTAMP` (lines 742-747). -/
def DCAM_TIMESTAMP : StructDecl := ⟨"DCAM_TIMESTAMP", [
  ⟨.ui32, "sec"⟩,
  ⟨.int32, "microsec"⟩]⟩

/-- Declaration of `struct DCAMCAP_TRANSFERINFO` (lines 749-756). -/
def DCAMCAP_TRANSFERINFO : StructDecl := ⟨"DCAMCAP_TRANSFERINFO", [
  ⟨.int32, "size"⟩,
  ⟨.int32, "iKind"⟩,
  ⟨.int32, "nNewestFrameIndex"⟩,
  ⟨.int32, "nFrameCount"⟩]⟩

/-- Declaration of `struct DCAMBUF_FRAME` (lines 758-780). -/
def DCAMBUF_FRAME : StructDecl := ⟨"DCAMBUF_FRAME", [
  ⟨.int32, "size"⟩,
  ⟨.int32, "iKind"⟩,
  ⟨.int32, "option"⟩,
  ⟨.int32, "iFrame"⟩,
  ⟨(.ptr .void), "buf"⟩,
  ⟨.int32, "rowbytes"⟩,
  ⟨(.enum "DCAM_PIXELTYPE"), "type"⟩,
  ⟨.int32, "width"⟩,
  ⟨.int32, "height"⟩,
  ⟨.int32, "left"⟩,
  ⟨.int32, "top"⟩,
  ⟨(.struct "DCAM_TIMESTAMP"), "timestamp"⟩,
  ⟨.int32, "framestamp"⟩,
  ⟨.int32, "camerastamp"⟩]⟩

/-- Declaration of `struct DCAMREC_FRAME` (lines 782-804). -/
def DCAMREC_FRAME : StructDecl := ⟨"DCAMREC_FRAME", [
  ⟨.int32, "size"⟩,
  ⟨.int32, "iKind"⟩,
  ⟨.int32, "option"⟩,
  ⟨.int32, "iFrame"⟩,
  ⟨(.ptr .void), "buf"⟩,
  ⟨.int32, "rowbytes"⟩,
  ⟨(.enum "DCAM_PIXELTYPE"), "type"⟩,
  ⟨.int32, "width"⟩,
  ⟨.int32, "height"⟩,
  ⟨.int32, "left"⟩,
  ⟨.int32, "top"⟩,
  ⟨(.struct "DCAM_TIMESTAMP"), "timestamp"⟩,
  ⟨.int32, "framestamp"⟩,
  ⟨.int32, "camerastamp"⟩]⟩

/-- Declaration of `struct DCAMWAIT_OPEN` (lines 806-813). -/
def DCAMWAIT_OPEN : StructDecl := ⟨"DCAMWAIT_OPEN", [
  ⟨.int32, "size"⟩,
  ⟨.int32, "supportevent"⟩,
  ⟨HDCAMWAIT, "hwait"⟩,
  ⟨HDCAM, "hdcam"⟩]⟩

/-- Declaration of `struct DCAMWAIT_START` (lines 815-822). -/
def DCAMWAIT_START : StructDecl := ⟨"DCAMWAIT_START", [
  ⟨.int32, "size"⟩,
  ⟨.int32, "eventhappened"⟩,
  ⟨.int32, "eventmask"⟩,
  ⟨.int32, "timeout"⟩]⟩

/-- Declaration of `struct DCAMREC_OPENA` (lines 826-841). -/
def DCAMREC_OPENA : StructDecl := ⟨"DCAMREC_OPENA", [
  ⟨.int32, "size"⟩,
  ⟨.int32, "reserved"⟩,
  ⟨HDCAMREC, "hrec"⟩,
  ⟨(.ptr (.const .char)), "path"⟩,
  ⟨(.ptr (.const .char)), "ext"⟩,
  ⟨.int32, "maxframepersession"⟩,
  ⟨.int32, "userdatasize"⟩,
  ⟨.int32, "userdatasize_session"⟩,
  ⟨.int32, "userdatasize_file"⟩,
  ⟨.int32, "usertextsize"⟩,
  ⟨.int32, "usertextsize_session"⟩,
  ⟨.int32, "usertextsize_file"⟩]⟩

/-- Declaration of `struct DCAMREC_OPENW` (lines 843-858). -/
def DCAMREC_OPENW : StructDecl := ⟨"DCAMREC_OPENW", [
  ⟨.int32, "size"⟩,
  ⟨.int32, "reserved"⟩,
  ⟨HDCAMREC, "hrec"⟩,
  ⟨(.ptr (.const .wchar_t)), "path"⟩,
  ⟨(.ptr (.const .wchar_t)), "ext"⟩,
  ⟨.int32, "maxframepersession"⟩,
  ⟨.int32, "userdatasize"⟩,
  ⟨.int32, "userdatasize_session"⟩,
  ⟨.int32, "userdatasize_file"⟩,
  ⟨.int32, "usertextsize"⟩,
  ⟨.int32, "usertextsize_session"⟩,
  ⟨.int32, "usertextsize_file"⟩]⟩

/-- Declaration of `struct DCAMREC_OPEN` (lines 862-877). -/
def DCAMREC_OPEN : StructDecl := ⟨"DCAMREC_OPEN", [
  ⟨.int32, "size"⟩,
  ⟨.int32, "reserved"⟩,
  ⟨HDCAMREC, "hrec"⟩,
  ⟨(.ptr (.const .char)), "path"⟩,
  ⟨(.ptr (.const .char)), "ext"⟩,
  ⟨.int32, "maxframepersession"⟩,
  ⟨.int32, "userdatasize"⟩,
  ⟨.int32, "userdatasize_session"⟩,
  ⟨.int32, "userdatasize_file"⟩,
  ⟨.int32, "usertextsize"⟩,
  ⟨.int32, "usertextsize_session"⟩,
  ⟨.int32, "usertextsize_file"⟩]⟩

/-- Declaration of `struct DCAMREC_STATUS` (lines 881-892). -/
def DCAMREC_STATUS : StructDecl := ⟨"DCAMREC_STATUS", [
  ⟨.int32, "size"⟩,
  ⟨.int32, "currentsession_index"⟩,
  ⟨.int32, "maxframecount_per_session"⟩,
  ⟨.int32, "currentframe_index"⟩,
  ⟨.int32, "missingframe_count"⟩,
  ⟨.int32, "flags"⟩,
  ⟨.int32, "totalframecount"⟩,
  ⟨.int32, "reserved"⟩]⟩

/-- Declaration of `struct DCAM_METADATAHDR` (lines 894-901). -/
def DCAM_METADATAHDR : StructDecl := ⟨"DCAM_METADATAHDR", [
  ⟨.int32, "size"⟩,
  ⟨.int32, "iKind"⟩,
  ⟨.int32, "option"⟩,
  ⟨.int32, "iFrame"⟩]⟩

/-- Declaration of `struct DCAM_METADATABLOCKHDR` (lines 903-912). -/
def DCAM_METADATABLOCKHDR : StructDecl := ⟨"DCAM_METADATABLOCKHDR", [
  ⟨.int32, "size"⟩,
  ⟨.int32, "iKind"⟩,
  ⟨.int32, "option"⟩,
  ⟨.int32, "iFrame"⟩,
  ⟨.int32, "in_count"⟩,
  ⟨.int32, "outcount"⟩]⟩

/-- Declaration of `struct DCAM_USERDATATEXT` (lines 914-924). -/
def DCAM_USERDATATEXT : StructDecl := ⟨"DCAM_USERDATATEXT", [
  ⟨(.struct "DCAM_METADATAHDR"), "hdr"⟩,
  ⟨(.ptr .char), "text"⟩,
  ⟨.int32, "text_len"⟩,
  ⟨.int32, "codepage"⟩]⟩

/-- Declaration of `struct DCAM_USERDATABIN` (lines 926-936). -/
def DCAM_USERDATABIN : StructDecl := ⟨"DCAM_USERDATABIN", [
  ⟨(.struct "DCAM_METADATAHDR"), "hdr"⟩,
  ⟨(.ptr .void), "bin"⟩,
  ⟨.int32, "bin_len"⟩,
  ⟨.int32, "reserved"⟩]⟩

/-- Declaration of `struct DCAM_TIMESTAMPBLOCK` (lines 938-950). -/
def DCAM_TIMESTAMPBLOCK : StructDecl := ⟨"DCAM_TIMESTAMPBLOCK", [
  ⟨(.struct "DCAM_METADATABLOCKHDR"), "hdr"⟩,
  ⟨(.ptr (.struct "DCAM_TIMESTAMP")), "timestamps"⟩,
  ⟨.int32, "timestampsize"⟩,
  ⟨.int32, "timestampvaildsize"⟩,
  ⟨.int32, "timestampkind"⟩,
  ⟨.int32, "reserved"⟩]⟩

/-- Declaration of `struct DCAM_FRAMESTAMPBLOCK` (lines 952-961). -/
def DCAM_FRAMESTAMPBLOCK : StructDecl := ⟨"DCAM_FRAMESTAMPBLOCK", [
  ⟨(.struct "DCAM_METADATABLOCKHDR"), "hdr"⟩,
  ⟨(.ptr .int32), "framestamps"⟩,
  ⟨.int32, "reserved"⟩]⟩

/-- Declaration of `struct DCAM_METADATATEXTBLOCK` (lines 963-986). -/
def DCAM_METADATATEXTBLOCK : StructDecl := ⟨"DCAM_METADATATEXTBLOCK", [
  ⟨(.struct "DCAM_METADATABLOCKHDR"), "hdr"⟩,
  ⟨(.ptr .void), "text"⟩,
  ⟨(.ptr .int32), "textsizes"⟩,
  ⟨.int32, "bytesperunit"⟩,
  ⟨.int32, "reserved"⟩,
  ⟨(.ptr .int32), "textcodepage"⟩]⟩

/-- Declaration of `struct DCAM_METADATABINBLOCK` (lines 988-1008). -/
def DCAM_METADATABINBLOCK : StructDecl := ⟨"DCAM_METADATABINBLOCK", [
  ⟨(.struct "DCAM_METADATABLOCKHDR"), "hdr"⟩,
  ⟨(.ptr .void), "bin"⟩,
  ⟨(.ptr .int32), "binsizes"⟩,
  ⟨.int32, "bytesperunit"⟩,
  ⟨.int32, "reserved"⟩]⟩

/-- Declaration of `struct DCAM_METADATABLOCK` (lines 1089-1109). -/
def DCAM_METADATABLOCK : StructDecl := ⟨"DCAM_METADATABLOCK", [
  ⟨(.struct "DCAM_METADATABLOCKHDR"), "hdr"⟩,
  ⟨(.ptr .void), "buf"⟩,
  ⟨(.ptr .int32), "unitsizes"⟩,
  ⟨.int32, "bytesperunit"⟩,
  ⟨.int32, "userdata_kind"⟩]⟩

/-- The structures the header declares under a build configuration, in source order.
Lines 824-879 declare `DCAMREC_OPENA` and `DCAMREC_OPENW` on Windows and
`DCAMREC_OPEN` elsewhere. -/
def structs (cfg : BuildConfig) : List StructDecl :=
  [DCAM_GUID, DCAMAPI_INIT, DCAMDEV_OPEN, DCAMDEV_CAPABILITY, DCAMDEV_CAPABILITY_LUT, DCAMDEV_CAPABILITY_REGION, DCAMDEV_CAPABILITY_FRAMEOPTION, DCAMDEV_STRING, DCAMDATA_HDR, DCAMDATA_REGION, DCAMDATA_REGIONRECT, DCAMDATA_LUT, DCAMDATA_LINEARLUT, DCAMPROP_ATTR, DCAMPROP_VALUETEXT, DCAMBUF_ATTACH, DCAM_TIMESTAMP, DCAMCAP_TRANSFERINFO, DCAMBUF_FRAME, DCAMREC_FRAME, DCAMWAIT_OPEN, DCAMWAIT_START]
  ++ (if isWindows cfg then [DCAMREC_OPENA, DCAMREC_OPENW] else [DCAMREC_OPEN])
  ++ [DCAMREC_STATUS, DCAM_METADATAHDR, DCAM_METADATABLOCKHDR, DCAM_USERDATATEXT, DCAM_USERDATABIN, DCAM_TIMESTAMPBLOCK, DCAM_FRAMESTAMPBLOCK, DCAM_METADATATEXTBLOCK, DCAM_METADATABINBLOCK, DCAM_METADATABLOCK]

/-- Look a structure up by its tag among the declarations `ds`. -/
def findStruct (ds : List StructDecl) (tag : String) : Option StructDecl :=
  ds.find? (fun d => d.tag == tag)

/-! ## Function prototypes (lines 1017-1087) -/

/-- A parameter of a prototype: type, name and default argument (C++ only). -/
structure Param where
  type : CType
  name : String
  dflt : Option Int
deriving DecidableEq

/-- A function prototype: return type, name and parameters. The calling-convention
symbol `DCAMAPI` (lines 59-65) does not change any type and is left out. -/
structure Prototype where
  ret : CType
  name : String
  params : List Param
deriving DecidableEq

/-- The symbol `DCAM_DEFAULT_ARG`: `= 0` in C++ (line 30), empty in C (line 42). -/
def DCAM_DEFAULT_ARG (cfg : BuildConfig) : Option Int :=
  if cfg.__cplusplus then some 0 else none

/-- A parameter without default argument. -/
def arg (t : CType) (n : String) : Param := ⟨t, n, none⟩

/-- A parameter followed by `DCAM_DEFAULT_ARG`. -/
def argDefault (cfg : BuildConfig) (t : CType) (n : String) : Param :=
  ⟨t, n, DCAM_DEFAULT_ARG cfg⟩

/-- The prototypes of lines 1017-1057. -/
def prototypesBeforeRecOpen (cfg : BuildConfig) : List Prototype := [
  -- line 1017
  ⟨(.enum "DCAMERR"), "dcamapi_init", [argDefault cfg (.ptr (.struct "DCAMAPI_INIT")) "param"]⟩,
  -- line 1018
  ⟨(.enum "DCAMERR"), "dcamapi_uninit", []⟩,
  -- line 1019
  ⟨(.enum "DCAMERR"), "dcamdev_open", [arg (.ptr (.struct "DCAMDEV_OPEN")) "param"]⟩,
  -- line 1020
  ⟨(.enum "DCAMERR"), "dcamdev_close", [arg HDCAM "h"]⟩,
  -- line 1021
  ⟨(.enum "DCAMERR"), "dcamdev_showpanel", [arg HDCAM "h", arg .int32 "iKind"]⟩,
  -- line 1022
  ⟨(.enum "DCAMERR"), "dcamdev_getcapability", [arg HDCAM "h", arg (.ptr (.struct "DCAMDEV_CAPABILITY")) "param"]⟩,
  -- line 1023
  ⟨(.enum "DCAMERR"), "dcamdev_getstring", [arg HDCAM "h", arg (.ptr (.struct "DCAMDEV_STRING")) "param"]⟩,
  -- line 1024
  ⟨(.enum "DCAMERR"), "dcamdev_setdata", [arg HDCAM "h", arg (.ptr (.struct "DCAMDATA_HDR")) "param"]⟩,
  -- line 1025
  ⟨(.enum "DCAMERR"), "dcamdev_getdata", [arg HDCAM "h", arg (.ptr (.struct "DCAMDATA_HDR")) "param"]⟩,
  -- line 1028
  ⟨(.enum "DCAMERR"), "dcamprop_getattr", [arg HDCAM "h", arg (.ptr (.struct "DCAMPROP_ATTR")) "param"]⟩,
  -- line 1029
  ⟨(.enum "DCAMERR"), "dcamprop_getvalue", [arg HDCAM "h", arg .int32 "iProp", arg (.ptr .double) "pValue"]⟩,
  -- line 1030
  ⟨(.enum "DCAMERR"), "dcamprop_setvalue", [arg HDCAM "h", arg .int32 "iProp", arg .double "fValue"]⟩,
  -- line 1031
  ⟨(.enum "DCAMERR"), "dcamprop_setgetvalue", [arg HDCAM "h", arg .int32 "iProp", arg (.ptr .double) "pValue", argDefault cfg .int32 "option"]⟩,
  -- line 1032
  ⟨(.enum "DCAMERR"), "dcamprop_queryvalue", [arg HDCAM "h", arg .int32 "iProp", arg (.ptr .double) "pValue", argDefault cfg .int32 "option"]⟩,
  -- line 1033
  ⟨(.enum "DCAMERR"), "dcamprop_getnextid", [arg HDCAM "h", arg (.ptr .int32) "pProp", argDefault cfg .int32 "option"]⟩,
  -- line 1034
  ⟨(.enum "DCAMERR"), "dcamprop_getname", [arg HDCAM "h", arg .int32 "iProp", arg (.ptr .char) "text", arg .int32 "textbytes"]⟩,
  -- line 1035
  ⟨(.enum "DCAMERR"), "dcamprop_getvaluetext", [arg HDCAM "h", arg (.ptr (.struct "DCAMPROP_VALUETEXT")) "param"]⟩,
  -- line 1038
  ⟨(.enum "DCAMERR"), "dcambuf_alloc", [arg HDCAM "h", arg .int32 "framecount"]⟩,
  -- line 1039
  ⟨(.enum "DCAMERR"), "dcambuf_attach", [arg HDCAM "h", arg (.ptr (.const (.struct "DCAMBUF_ATTACH"))) "param"]⟩,
  -- line 1040
  ⟨(.enum "DCAMERR"), "dcambuf_release", [arg HDCAM "h", argDefault cfg .int32 "iKind"]⟩,
  -- line 1041
  ⟨(.enum "DCAMERR"), "dcambuf_lockframe", [arg HDCAM "h", arg (.ptr (.struct "DCAMBUF_FRAME")) "pFrame"]⟩,
  -- line 1042
  ⟨(.enum "DCAMERR"), "dcambuf_copyframe", [arg HDCAM "h", arg (.ptr (.struct "DCAMBUF_FRAME")) "pFrame"]⟩,
  -- line 1043
  ⟨(.enum "DCAMERR"), "dcambuf_copymetadata", [arg HDCAM "h", arg (.ptr (.struct "DCAM_METADATAHDR")) "hdr"]⟩,
  -- line 1046
  ⟨(.enum "DCAMERR"), "dcamcap_start", [arg HDCAM "h", arg .int32 "mode"]⟩,
  -- line 1047
  ⟨(.enum "DCAMERR"), "dcamcap_stop", [arg HDCAM "h"]⟩,
  -- line 1048
  ⟨(.enum "DCAMERR"), "dcamcap_status", [arg HDCAM "h", arg (.ptr .int32) "pStatus"]⟩,
  -- line 1049
  ⟨(.enum "DCAMERR"), "dcamcap_transferinfo", [arg HDCAM "h", arg (.ptr (.struct "DCAMCAP_TRANSFERINFO")) "param"]⟩,
  -- line 1050
  ⟨(.enum "DCAMERR"), "dcamcap_firetrigger", [arg HDCAM "h", argDefault cfg .int32 "iKind"]⟩,
  -- line 1051
  ⟨(.enum "DCAMERR"), "dcamcap_record", [arg HDCAM "h", arg HDCAMREC "hrec"]⟩,
  -- line 1054
  ⟨(.enum "DCAMERR"), "dcamwait_open", [arg (.ptr (.struct "DCAMWAIT_OPEN")) "param"]⟩,
  -- line 1055
  ⟨(.enum "DCAMERR"), "dcamwait_close", [arg HDCAMWAIT "hWait"]⟩,
  -- line 1056
  ⟨(.enum "DCAMERR"), "dcamwait_start", [arg HDCAMWAIT "hWait", arg (.ptr (.struct "DCAMWAIT_START")) "param"]⟩,
  -- line 1057
  ⟨(.enum "DCAMERR"), "dcamwait_abort", [arg HDCAMWAIT "hWait"]⟩]

/-- The recording-open prototypes of lines 1060-1074. -/
def prototypesRecOpen (cfg : BuildConfig) : List Prototype :=
  if isWindows cfg then [
  -- line 1061
  ⟨(.enum "DCAMERR"), "dcamrec_openA", [arg (.ptr (.struct "DCAMREC_OPENA")) "param"]⟩,
  -- line 1062
  ⟨(.enum "DCAMERR"), "dcamrec_openW", [arg (.ptr (.struct "DCAMREC_OPENW")) "param"]⟩]
  else [
  -- line 1073
  ⟨(.enum "DCAMERR"), "dcamrec_open", [arg (.ptr (.struct "DCAMREC_OPEN")) "param"]⟩]

/-- The prototypes of lines 1076-1087. -/
def prototypesAfterRecOpen : List Prototype := [
  -- line 1076
  ⟨(.enum "DCAMERR"), "dcamrec_close", [arg HDCAMREC "hrec"]⟩,
  -- line 1077
  ⟨(.enum "DCAMERR"), "dcamrec_lockframe", [arg HDCAMREC "hrec", arg (.ptr (.struct "DCAMREC_FRAME")) "pFrame"]⟩,
  -- line 1078
  ⟨(.enum "DCAMERR"), "dcamrec_copyframe", [arg HDCAMREC "hrec", arg (.ptr (.struct "DCAMREC_FRAME")) "pFrame"]⟩,
  -- line 1079
  ⟨(.enum "DCAMERR"), "dcamrec_writemetadata", [arg HDCAMREC "hrec", arg (.ptr (.const (.struct "DCAM_METADATAHDR"))) "hdr"]⟩,
  -- line 1080
  ⟨(.enum "DCAMERR"), "dcamrec_lockmetadata", [arg HDCAMREC "hrec", arg (.ptr (.struct "DCAM_METADATAHDR")) "hdr"]⟩,
  -- line 1081
  ⟨(.enum "DCAMERR"), "dcamrec_copymetadata", [arg HDCAMREC "hrec", arg (.ptr (.struct "DCAM_METADATAHDR")) "hdr"]⟩,
  -- line 1082
  ⟨(.enum "DCAMERR"), "dcamrec_lockmetadatablock", [arg HDCAMREC "hrec", arg (.ptr (.struct "DCAM_METADATABLOCKHDR")) "hdr"]⟩,
  -- line 1083
  ⟨(.enum "DCAMERR"), "dcamrec_copymetadatablock", [arg HDCAMREC "hrec", arg (.ptr (.struct "DCAM_METADATABLOCKHDR")) "hdr"]⟩,
  -- line 1085
  ⟨(.enum "DCAMERR"), "dcamrec_pause", [arg HDCAMREC "hrec"]⟩,
  -- line 1086
  ⟨(.enum "DCAMERR"), "dcamrec_resume", [arg HDCAMREC "hrec"]⟩,
  -- line 1087
  ⟨(.enum "DCAMERR"), "dcamrec_status", [arg HDCAMREC "hrec", arg (.ptr (.struct "DCAMREC_STATUS")) "pStatus"]⟩]

/-- The prototypes the header declares under a build configuration, in source order. -/
def prototypes (cfg : BuildConfig) : List Prototype :=
  prototypesBeforeRecOpen cfg ++ prototypesRecOpen cfg ++ prototypesAfterRecOpen

/-- The object-like `#define`s of lines 1064-1070: on Windows `DCAMREC_OPEN` and
`dcamrec_open` name the `W` variants when `UNICODE` or `_UNICODE` is defined and the
`A` variants otherwise; elsewhere nothing is defined. -/
def defines (cfg : BuildConfig) : List (String × String) :=
  if isWindows cfg then
    if isUnicode cfg then
      [("DCAMREC_OPEN", "DCAMREC_OPENW"), ("dcamrec_open", "dcamrec_openW")]
    else
      [("DCAMREC_OPEN", "DCAMREC_OPENA"), ("dcamrec_open", "dcamrec_openA")]
  else []

/-- What the preprocessor makes of an identifier: its replacement when it is defined,
the identifier itself otherwise. -/
def resolve (cfg : BuildConfig) (name : String) : String :=
  ((defines cfg).lookup name).getD name

/-! ## Structure layout under `#pragma pack(8)` (line 11) -/

/-- The packing limit set by `#pragma pack(8)`. -/
def packAlignment : Nat := 8

/-- Size and natural alignment of a complete object type, in bytes. -/
structure Extent where
  size : Nat
  align : Nat
deriving DecidableEq

/-- The layout of a structure: the offset of each member in order, the total size
(trailing padding included) and the alignment. -/
structure Layout where
  offsets : List Nat
  size : Nat
  align : Nat
deriving DecidableEq

/-- Size and natural alignment of a type for pointer size `P`, given the layouts of the
structures completed so far: char 1, short 2, `int32`, `_ui32` and enumerations 4,
double 8, pointers `P`; an array has its element's alignment; a structure is looked up.
`void`, a structure not yet completed and `wchar_t` (which the header uses only behind
pointers) have no extent. -/
def typeExtent (P : Nat) (tbl : List (String × Layout)) : CType → Option Extent
  | .void => none
  | .wchar_t => none
  | .char => some ⟨1, 1⟩
  | .uchar => some ⟨1, 1⟩
  | .short => some ⟨2, 2⟩
  | .ushort => some ⟨2, 2⟩
  | .int32 => some ⟨4, 4⟩
  | .ui32 => some ⟨4, 4⟩
  | .enum _ => some ⟨4, 4⟩
  | .double => some ⟨8, 8⟩
  | .ptr _ => some ⟨P, P⟩
  | .const t => typeExtent P tbl t
  | .array t n => (typeExtent P tbl t).map (fun e => ⟨e.size * n, e.align⟩)
  | .struct tag => (tbl.lookup tag).map (fun l => ⟨l.size, l.align⟩)

/-- The least multiple of `a` that is at least `off`. -/
def alignUp (off a : Nat) : Nat := (off + a - 1) / a * a

/-- Place members one after the other from offset `off`: each goes to the next multiple
of the smaller of its natural alignment and the packing limit. Returns the offsets, the
end of the last member and the largest alignment used (starting from `al`). -/
def placeMembers (P : Nat) (tbl : List (String × Layout)) :
    Nat → Nat → List Member → Option (List Nat × Nat × Nat)
  | off, al, [] => some ([], off, al)
  | off, al, m :: ms =>
    match typeExtent P tbl m.type with
    | none => none
    | some e =>
      let a := min e.align packAlignment
      let o := alignUp off a
      match placeMembers P tbl (o + e.size) (max al a) ms with
      | none => none
      | some (os, stop, al2) => some (o :: os, stop, al2)

/-- Layout of one structure: members placed from offset 0, total size rounded up to the
structure's alignment. -/
def structLayout (P : Nat) (tbl : List (String × Layout)) (d : StructDecl) : Option Layout :=
  match placeMembers P tbl 0 1 d.members with
  | none => none
  | some (os, stop, al) => some ⟨os, alignUp stop al, al⟩

/-- Lay the declarations out in source order; a member of structure type refers to a
structure completed earlier. -/
def layoutAll (P : Nat) : List (String × Layout) → List StructDecl → List (String × Layout)
  | tbl, [] => tbl
  | tbl, d :: ds =>
    match structLayout P tbl d with
    | none => layoutAll P tbl ds
    | some l => layoutAll P (tbl ++ [(d.tag, l)]) ds

/-- The layouts of all structures of the declaration list `ds`, for pointer size `P`. -/
def layouts (P : Nat) (ds : List StructDecl) : List (String × Layout) :=
  layoutAll P [] ds

/-- The layout of the structure with a given tag among the declarations `ds`. -/
def layoutOf (P : Nat) (ds : List StructDecl) (tag : String) : Option Layout :=
  (layouts P ds).lookup tag

/-- The sizes of the members of a structure, in order. -/
def memberSizes (P : Nat) (ds : List StructDecl) (d : StructDecl) : Option (List Nat) :=
  d.members.mapM (fun m => (typeExtent P (layouts P ds) m.type).map (fun e => e.size))

/-- For each position of a list of sizes, the sum of the sizes before it, starting
from `acc`. -/
def sumsBefore : Nat → List Nat → List Nat
  | _, [] => []
  | acc, s :: ss => acc :: sumsBefore (acc + s) ss

/-! ## Notions used by the statements -/

/-- The tag of the structure a type points to, when the type is a pointer to a structure
or to a `const` structure. -/
def pointeeStruct : CType → Option String
  | .ptr (.struct tag) => some tag
  | .ptr (.const (.struct tag)) => some tag
  | _ => none

/-- The tags of the structures that parameters of the prototypes `ps` point to, each once,
in order of first occurrence. -/
def paramStructTags (ps : List Prototype) : List String :=
  ((ps.map (fun p => p.params.filterMap (fun a => pointeeStruct a.type))).flatten).eraseDups

/-- The parameter pointees that the header defines as structures (the handle tags
`tag_dcam`, `DCAMWAIT` and `DCAMREC` are never defined). -/
def declaredParamStructs (cfg : BuildConfig) : List String :=
  (paramStructTags (prototypes cfg)).filter (fun t => (findStruct (structs cfg) t).isSome)

/-- The pairs (structure, header) such that the structure of `ds` has a member whose type
is the structure `header`, for the headers `hdrs`. -/
def embeddedHeaders (ds : List StructDecl) (hdrs : List String) : List (String × String) :=
  (ds.map (fun d => d.members.filterMap (fun m =>
    match m.type with
    | .struct h => if hdrs.contains h then some (d.tag, h) else none
    | _ => none))).flatten

/-- The byte offset of the member reached from the structure `tag` by the member names
`path` (a member, then a member of that member, and so on). -/
def fieldOffset (P : Nat) (ds : List StructDecl) : String → List String → Option Nat
  | _, [] => some 0
  | tag, f :: rest =>
    match findStruct ds tag, layoutOf P ds tag with
    | some d, some l =>
      match d.members.findIdx? (fun m => m.name == f) with
      | none => none
      | some i =>
        match d.members.get? i, l.offsets.get? i, rest with
        | some _, some o, [] => some o
        | some m, some o, _ :: _ =>
          match m.type with
          | .struct t => (fieldOffset P ds t rest).map (fun r => o + r)
          | _ => none
        | _, _, _ => none
    | _, _ => none


/-! # Theorems -/

set_option maxRecDepth 100000

/-! ## Result codes and `failed` -/

/-- C1: for every code `err`, `failed err` is nonzero exactly when bit 31 of `err` is set,
and exactly when the low 32 bits of `err`, read in two's complement, are negative. -/
theorem failed_ne_zero_iff_sign_bit (err : Nat) :
    (failed err ≠ 0 ↔ err.testBit 31 = true) ∧ (failed err ≠ 0 ↔ toInt32 err < 0) := by
  have hbit : err.testBit 31 = true ↔ 2 ^ 31 ≤ err % 2 ^ 32 := by
    rw [Nat.testBit_to_div_mod]
    simp only [decide_eq_true_eq]
    omega
  have hsign : toInt32 err < 0 ↔ 2 ^ 31 ≤ err % 2 ^ 32 := by
    unfold toInt32
    split <;> omega
  have hf : failed err ≠ 0 ↔ toInt32 err < 0 := by
    unfold failed
    split <;> simp_all
  exact ⟨by rw [hf, hsign, hbit], hf⟩

/-- C2: the enumerators of `DCAMERR` that are strictly positive as signed 32-bit integers
are exactly one, `DCAMERR_SUCCESS` with value 1, and `failed` returns 0 for it. -/
theorem success_is_only_positive_code :
    DCAMERR_enumerators.filter (fun e => decide (0 < toInt32 e.2))
        = [("DCAMERR_SUCCESS", DCAMERR_SUCCESS)]
      ∧ DCAMERR_SUCCESS = 1
      ∧ failed DCAMERR_SUCCESS = 0 := by
  decide

/-- C3: every enumerator of `DCAMERR` other than `DCAMERR_NONE` and `DCAMERR_SUCCESS` has
bit 31 set, is negative as a signed 32-bit integer, and makes `failed` return nonzero. -/
theorem error_codes_have_sign_bit :
    ∀ e ∈ DCAMERR_enumerators, e.1 ≠ "DCAMERR_NONE" → e.1 ≠ "DCAMERR_SUCCESS" →
      e.2 < 2 ^ 32 ∧ e.2.testBit 31 = true ∧ toInt32 e.2 < 0 ∧ failed e.2 ≠ 0 := by
  decide

/-- Witness of C3 at `DCAMERR_BUSY = 0x80000101`. -/
theorem error_codes_have_sign_bit_witness :
    (0x80000101 : Nat) < 2 ^ 32 ∧ (0x80000101 : Nat).testBit 31 = true
      ∧ toInt32 0x80000101 < 0 ∧ failed 0x80000101 ≠ 0 :=
  error_codes_have_sign_bit ("DCAMERR_BUSY", 0x80000101) (by decide) (by decide) (by decide)

/-! ## The leading size member -/

/-- Counterexample to C4 as stated: under the configuration with no symbol defined, the prototype
`dcamprop_getattr` (line 1028) takes a pointer to `DCAMPROP_ATTR`, whose first member is
the `int32` named `cbSize` (line 697), not `size`; so not every parameter pointee begins
with an `int32` member named `size`. -/
theorem param_struct_size_name_counterexample :
    DCAMPROP_ATTR ∈ structs ⟨false, false, false, false, false⟩
      ∧ (∃ p ∈ prototypes ⟨false, false, false, false, false⟩, p.name = "dcamprop_getattr"
          ∧ ∃ a ∈ p.params, pointeeStruct a.type = some DCAMPROP_ATTR.tag)
      ∧ DCAMPROP_ATTR.members.head? = some ⟨.int32, "cbSize"⟩
      ∧ ¬ (∀ cfg : BuildConfig, ∀ p ∈ prototypes cfg, ∀ a ∈ p.params, ∀ d ∈ structs cfg,
            pointeeStruct a.type = some d.tag → d.members.head? = some ⟨.int32, "size"⟩) := by
  refine ⟨by decide, by decide, by decide, fun h => ?_⟩
  have h1 := h ⟨false, false, false, false, false⟩
    ⟨.enum "DCAMERR", "dcamprop_getattr",
      [arg HDCAM "h", arg (.ptr (.struct "DCAMPROP_ATTR")) "param"]⟩ (by decide)
    (arg (.ptr (.struct "DCAMPROP_ATTR")) "param") (by decide)
    DCAMPROP_ATTR (by decide) (by decide)
  revert h1
  decide

/-- C4 amended: the structures that parameters of the prototypes point to are the listed
ones, and each has as its first member an `int32` that is named `size`, except
`DCAMPROP_ATTR` and `DCAMPROP_VALUETEXT`, where that first `int32` member is named
`cbSize`. -/
theorem param_structs_begin_with_size_member (cfg : BuildConfig) :
    declaredParamStructs cfg
        = ["DCAMAPI_INIT", "DCAMDEV_OPEN", "DCAMDEV_CAPABILITY", "DCAMDEV_STRING",
            "DCAMDATA_HDR", "DCAMPROP_ATTR", "DCAMPROP_VALUETEXT", "DCAMBUF_ATTACH",
            "DCAMBUF_FRAME", "DCAM_METADATAHDR", "DCAMCAP_TRANSFERINFO", "DCAMWAIT_OPEN",
            "DCAMWAIT_START"]
          ++ (if isWindows cfg then ["DCAMREC_OPENA", "DCAMREC_OPENW"] else ["DCAMREC_OPEN"])
          ++ ["DCAMREC_FRAME", "DCAM_METADATABLOCKHDR", "DCAMREC_STATUS"]
      ∧ ∀ p ∈ prototypes cfg, ∀ a ∈ p.params, ∀ d ∈ structs cfg,
          pointeeStruct a.type = some d.tag →
            d.members.head? = some ⟨.int32,
              if d.tag = "DCAMPROP_ATTR" ∨ d.tag = "DCAMPROP_VALUETEXT" then "cbSize"
              else "size"⟩ := by
  unfold declaredParamStructs prototypes prototypesBeforeRecOpen prototypesRecOpen argDefault
    DCAM_DEFAULT_ARG structs
  generalize isWindows cfg = w
  generalize cfg.__cplusplus = c
  cases w <;> cases c <;> decide

/-- Witness of C4 amended, at the parameter of `dcamdev_open` and at the parameter of
`dcamprop_getvaluetext`. -/
theorem param_structs_begin_with_size_member_witness :
    DCAMDEV_OPEN.members.head? = some ⟨.int32, "size"⟩
      ∧ DCAMPROP_VALUETEXT.members.head? = some ⟨.int32, "cbSize"⟩ :=
  ⟨(param_structs_begin_with_size_member ⟨true, false, false, false, true⟩).2
      ⟨.enum "DCAMERR", "dcamdev_open", [arg (.ptr (.struct "DCAMDEV_OPEN")) "param"]⟩
      (by decide) (arg (.ptr (.struct "DCAMDEV_OPEN")) "param") (by decide)
      DCAMDEV_OPEN (by decide) (by decide),
   (param_structs_begin_with_size_member ⟨true, false, false, false, true⟩).2
      ⟨.enum "DCAMERR", "dcamprop_getvaluetext",
        [arg HDCAM "h", arg (.ptr (.struct "DCAMPROP_VALUETEXT")) "param"]⟩
      (by decide) (arg (.ptr (.struct "DCAMPROP_VALUETEXT")) "param") (by decide)
      DCAMPROP_VALUETEXT (by decide) (by decide)⟩

/-! ## Embedded headers and layout -/

/-- C5: the structures with a member whose type is a structure that prototypes take by
pointer are the twelve listed ones; in each that member is the first one, at byte
offset 0, and every member of the header has the same byte offset inside the larger
structure as inside the header itself (pointer size 4 or 8). -/
theorem embedded_header_is_leading (cfg : BuildConfig) (P : Nat) (hP : P = 4 ∨ P = 8) :
    embeddedHeaders (structs cfg) (paramStructTags (prototypes cfg))
        = [("DCAMDEV_CAPABILITY_LUT", "DCAMDEV_CAPABILITY"),
           ("DCAMDEV_CAPABILITY_REGION", "DCAMDEV_CAPABILITY"),
           ("DCAMDEV_CAPABILITY_FRAMEOPTION", "DCAMDEV_CAPABILITY"),
           ("DCAMDATA_REGION", "DCAMDATA_HDR"),
           ("DCAMDATA_LUT", "DCAMDATA_HDR"),
           ("DCAM_USERDATATEXT", "DCAM_METADATAHDR"),
           ("DCAM_USERDATABIN", "DCAM_METADATAHDR"),
           ("DCAM_TIMESTAMPBLOCK", "DCAM_METADATABLOCKHDR"),
           ("DCAM_FRAMESTAMPBLOCK", "DCAM_METADATABLOCKHDR"),
           ("DCAM_METADATATEXTBLOCK", "DCAM_METADATABLOCKHDR"),
           ("DCAM_METADATABINBLOCK", "DCAM_METADATABLOCKHDR"),
           ("DCAM_METADATABLOCK", "DCAM_METADATABLOCKHDR")]
      ∧ ∀ d ∈ structs cfg, ∀ m ∈ d.members, ∀ h ∈ structs cfg,
          m.type = .struct h.tag → h.tag ∈ paramStructTags (prototypes cfg) →
            d.members.head? = some m
            ∧ fieldOffset P (structs cfg) d.tag [m.name] = some 0
            ∧ ∀ f ∈ h.members,
                (fieldOffset P (structs cfg) h.tag [f.name]).isSome = true
                ∧ fieldOffset P (structs cfg) d.tag [m.name, f.name]
                    = fieldOffset P (structs cfg) h.tag [f.name] := by
  unfold prototypes prototypesBeforeRecOpen prototypesRecOpen argDefault
    DCAM_DEFAULT_ARG structs
  generalize isWindows cfg = w
  generalize cfg.__cplusplus = c
  rcases hP with rfl | rfl <;> cases w <;> cases c <;> decide

/-- Witness of C5 at `DCAM_FRAMESTAMPBLOCK` with 8-byte pointers: `hdr` is its first member, at
offset 0, and `hdr.size` lies at the offset of `size` in `DCAM_METADATABLOCKHDR`. -/
theorem embedded_header_is_leading_witness :
    DCAM_FRAMESTAMPBLOCK.members.head? = some ⟨.struct "DCAM_METADATABLOCKHDR", "hdr"⟩
      ∧ fieldOffset 8 (structs ⟨false, false, false, false, false⟩)
          "DCAM_FRAMESTAMPBLOCK" ["hdr", "size"]
        = fieldOffset 8 (structs ⟨false, false, false, false, false⟩)
          "DCAM_METADATABLOCKHDR" ["size"] :=
  have h := (embedded_header_is_leading ⟨false, false, false, false, false⟩ 8 (Or.inr rfl)).2
    DCAM_FRAMESTAMPBLOCK (by decide) ⟨.struct "DCAM_METADATABLOCKHDR", "hdr"⟩ (by decide)
    DCAM_METADATABLOCKHDR (by decide) rfl (by decide)
  ⟨h.1, (h.2.2 ⟨.int32, "size"⟩ (by decide)).2⟩

/-- C6: for pointer size 4 and for pointer size 8, every declared structure has a layout
in which each member lies at the sum of the sizes of the members before it. -/
theorem no_interior_padding (cfg : BuildConfig) (P : Nat) (hP : P = 4 ∨ P = 8) :
    ∀ d ∈ structs cfg,
      (layoutOf P (structs cfg) d.tag).isSome = true
      ∧ (layoutOf P (structs cfg) d.tag).map Layout.offsets
          = (memberSizes P (structs cfg) d).map (sumsBefore 0) := by
  unfold structs
  generalize isWindows cfg = w
  rcases hP with rfl | rfl <;> cases w <;> decide

/-- Witness of C6 at `DCAMPROP_VALUETEXT` with 4-byte pointers: the offsets 0, 4, 8, 16, 20 are the
running sums of the member sizes 4, 4, 8, 4, 4. -/
theorem no_interior_padding_witness :
    (layoutOf 4 (structs ⟨true, false, false, false, false⟩) "DCAMPROP_VALUETEXT").map
        Layout.offsets = some [0, 4, 8, 16, 20]
      ∧ (memberSizes 4 (structs ⟨true, false, false, false, false⟩) DCAMPROP_VALUETEXT).map
          (sumsBefore 0) = some [0, 4, 8, 16, 20] :=
  have h := (no_interior_padding ⟨true, false, false, false, false⟩ 4 (Or.inl rfl)
    DCAMPROP_VALUETEXT (by decide)).2
  ⟨h.trans (by decide), by decide⟩

/-! ## Prototypes -/

/-- C7: in every build configuration every declared prototype has return type
`DCAMERR`. -/
theorem every_prototype_returns_DCAMERR (cfg : BuildConfig) :
    ∀ p ∈ prototypes cfg, p.ret = .enum "DCAMERR" := by
  unfold prototypes prototypesBeforeRecOpen prototypesRecOpen argDefault DCAM_DEFAULT_ARG
  generalize isWindows cfg = w
  generalize cfg.__cplusplus = c
  cases w <;> cases c <;> decide

/-- Witness of C7 at `dcamrec_openW` on Windows with `UNICODE`, compiled as C++. -/
theorem every_prototype_returns_DCAMERR_witness :
    (Prototype.mk (.enum "DCAMERR") "dcamrec_openW"
        [arg (.ptr (.struct "DCAMREC_OPENW")) "param"]).ret = .enum "DCAMERR" :=
  every_prototype_returns_DCAMERR ⟨true, false, true, false, true⟩ _ (by decide)

/-! ## Recording-open variants and frame structures -/

/-- C8: `DCAMREC_OPENA` and `DCAMREC_OPENW` (declared on Windows) and `DCAMREC_OPEN`
(declared elsewhere) have the same member names in the same order and the same member
types, except that `path` and `ext` point to `const char` in `DCAMREC_OPENA` and
`DCAMREC_OPEN` and to `const wchar_t` in `DCAMREC_OPENW`; their layouts (member
offsets, total size, alignment) coincide for pointer size 4 and for pointer size 8. -/
theorem rec_open_variants_agree (cfgW cfgO : BuildConfig) (P : Nat)
    (hW : isWindows cfgW = true) (hO : isWindows cfgO = false) (hP : P = 4 ∨ P = 8) :
    DCAMREC_OPEN.members = DCAMREC_OPENA.members
      ∧ DCAMREC_OPENW.members.map Member.name = DCAMREC_OPENA.members.map Member.name
      ∧ (∀ q ∈ List.zip DCAMREC_OPENA.members DCAMREC_OPENW.members,
          if q.1.name = "path" ∨ q.1.name = "ext" then
            q.1.type = .ptr (.const .char) ∧ q.2.type = .ptr (.const .wchar_t)
          else q.1.type = q.2.type)
      ∧ DCAMREC_OPENA ∈ structs cfgW ∧ DCAMREC_OPENW ∈ structs cfgW
      ∧ DCAMREC_OPEN ∈ structs cfgO
      ∧ (layoutOf P (structs cfgW) "DCAMREC_OPENA").isSome = true
      ∧ layoutOf P (structs cfgW) "DCAMREC_OPENW" = layoutOf P (structs cfgW) "DCAMREC_OPENA"
      ∧ layoutOf P (structs cfgO) "DCAMREC_OPEN" = layoutOf P (structs cfgW) "DCAMREC_OPENA" := by
  unfold structs
  rw [hW, hO]
  rcases hP with rfl | rfl <;> decide

/-- Witness of C8 with 8-byte pointers, at the configuration defining `_WIN32` and the one defining
nothing: the three structures share the layout of size 64. -/
theorem rec_open_variants_agree_witness :
    (layoutOf 8 (structs ⟨true, false, false, false, false⟩) "DCAMREC_OPENA").map Layout.size
        = some 64
      ∧ layoutOf 8 (structs ⟨true, false, false, false, false⟩) "DCAMREC_OPENW"
        = layoutOf 8 (structs ⟨true, false, false, false, false⟩) "DCAMREC_OPENA"
      ∧ layoutOf 8 (structs ⟨false, false, false, false, false⟩) "DCAMREC_OPEN"
        = layoutOf 8 (structs ⟨true, false, false, false, false⟩) "DCAMREC_OPENA" :=
  have h := rec_open_variants_agree ⟨true, false, false, false, false⟩
    ⟨false, false, false, false, false⟩ 8 rfl rfl (Or.inr rfl)
  ⟨by decide, h.2.2.2.2.2.2.2.1, h.2.2.2.2.2.2.2.2⟩

/-- C9: `DCAMREC_FRAME` and `DCAMBUF_FRAME` have the same sequence of members (names and
types, in the order size, iKind, option, iFrame, buf, rowbytes, type, width, height,
left, top, timestamp, framestamp, camerastamp), hence the same layout whatever the
pointer size and the structures declared before them; in every configuration, for
pointer size 4 and 8, both are laid out, with the same offsets and size. -/
theorem frame_structs_agree :
    DCAMREC_FRAME.members = DCAMBUF_FRAME.members
      ∧ DCAMBUF_FRAME.members.map Member.name
          = ["size", "iKind", "option", "iFrame", "buf", "rowbytes", "type", "width",
             "height", "left", "top", "timestamp", "framestamp", "camerastamp"]
      ∧ (∀ (P : Nat) (tbl : List (String × Layout)),
          structLayout P tbl DCAMREC_FRAME = structLayout P tbl DCAMBUF_FRAME)
      ∧ ∀ (cfg : BuildConfig) (P : Nat), P = 4 ∨ P = 8 →
          (layoutOf P (structs cfg) "DCAMBUF_FRAME").isSome = true
          ∧ layoutOf P (structs cfg) "DCAMREC_FRAME"
              = layoutOf P (structs cfg) "DCAMBUF_FRAME" := by
  refine ⟨by decide, by decide, fun P tbl => rfl, fun cfg P hP => ?_⟩
  unfold structs
  generalize isWindows cfg = w
  rcases hP with rfl | rfl <;> cases w <;> decide

/-- Witness of C9 with 8-byte pointers on a non-Windows build: both frame structures have the
layout that `DCAMBUF_FRAME` has. -/
theorem frame_structs_agree_witness :
    (layoutOf 8 (structs ⟨false, false, false, false, false⟩) "DCAMBUF_FRAME").isSome = true
      ∧ layoutOf 8 (structs ⟨false, false, false, false, false⟩) "DCAMREC_FRAME"
          = layoutOf 8 (structs ⟨false, false, false, false, false⟩) "DCAMBUF_FRAME" :=
  frame_structs_agree.2.2.2 ⟨false, false, false, false, false⟩ 8 (Or.inr rfl)

/-- C10: on Windows `DCAMREC_OPEN` and `dcamrec_open` resolve to the `W` variants exactly
when `UNICODE` or `_UNICODE` is defined and to the `A` variants otherwise; elsewhere
they are the names the header declares itself; and in every configuration the name
`dcamrec_open` resolves to belongs to exactly one prototype, whose only parameter
is a pointer to the structure `DCAMREC_OPEN` resolves to, a declared structure. -/
theorem rec_open_names_resolve (cfg : BuildConfig) :
    (isWindows cfg = true →
        ((resolve cfg "DCAMREC_OPEN" = "DCAMREC_OPENW" ∧ resolve cfg "dcamrec_open" = "dcamrec_openW")
            ↔ isUnicode cfg = true)
        ∧ ((resolve cfg "DCAMREC_OPEN" = "DCAMREC_OPENA" ∧ resolve cfg "dcamrec_open" = "dcamrec_openA")
            ↔ isUnicode cfg = false))
      ∧ (isWindows cfg = false →
          resolve cfg "DCAMREC_OPEN" = "DCAMREC_OPEN" ∧ resolve cfg "dcamrec_open" = "dcamrec_open")
      ∧ ((prototypes cfg).filter (fun p => p.name == resolve cfg "dcamrec_open")).map
            (fun p => p.params.map Param.type)
          = [[.ptr (.struct (resolve cfg "DCAMREC_OPEN"))]]
      ∧ (findStruct (structs cfg) (resolve cfg "DCAMREC_OPEN")).isSome = true := by
  unfold prototypes prototypesBeforeRecOpen prototypesRecOpen argDefault DCAM_DEFAULT_ARG
    structs resolve defines
  generalize isWindows cfg = w
  generalize isUnicode cfg = u
  generalize cfg.__cplusplus = c
  cases w <;> cases u <;> cases c <;> decide

/-- Witness of C10 on Windows with `_UNICODE` defined: the names resolve to the `W` variants. -/
theorem rec_open_names_resolve_witness :
    resolve ⟨false, true, false, true, false⟩ "DCAMREC_OPEN" = "DCAMREC_OPENW"
      ∧ resolve ⟨false, true, false, true, false⟩ "dcamrec_open" = "dcamrec_openW" :=
  ((rec_open_names_resolve ⟨false, true, false, true, false⟩).1 rfl).1.2 rfl

/-! ## Flag and option enumerations -/

/-- A bitwise OR is zero only when both operands are zero. -/
theorem or_eq_zero_iff_both (a b : Nat) : a ||| b = 0 ↔ a = 0 ∧ b = 0 := by
  constructor
  · intro hab
    have h : ∀ i, a.testBit i = false ∧ b.testBit i = false := by
      intro i
      have hi : (a ||| b).testBit i = false := by rw [hab]; simp
      simpa [Nat.testBit_or] using hi
    exact ⟨Nat.eq_of_testBit_eq (fun i => by simp [(h i).1]),
      Nat.eq_of_testBit_eq (fun i => by simp [(h i).2])⟩
  · rintro ⟨rfl, rfl⟩
    simp

/-- Two explicitly valued enumerators of `DCAMWAIT_EVENT` have a common bit only when
they are the same enumerator. -/
theorem wait_event_and_ne_zero_iff :
    ∀ e ∈ DCAMWAIT_EVENT_enumerators.filter (fun e => e.explicit),
      ∀ f ∈ DCAMWAIT_EVENT_enumerators.filter (fun e => e.explicit),
        (e.value &&& f.value ≠ 0 ↔ e = f) := by
  decide

/-- C11: every explicitly valued enumerator of `DCAMWAIT_EVENT` is a power of two, no
two of them share a bit, the `DCAMWAIT_CAPEVENT_*` values lie within `0x00FF` and the
`DCAMWAIT_RECEVENT_*` values within `0xFF00`; and for any list `S` of such enumerators,
an enumerator belongs to `S` exactly when its bit is set in the OR of `S`. -/
theorem wait_events_are_distinct_bits :
    (∀ e ∈ DCAMWAIT_EVENT_enumerators, e.explicit = true → ∃ k < 16, e.value = 2 ^ k)
      ∧ (∀ e ∈ DCAMWAIT_EVENT_enumerators, ∀ f ∈ DCAMWAIT_EVENT_enumerators,
          e.explicit = true → f.explicit = true → e ≠ f → e.value &&& f.value = 0)
      ∧ (∀ e ∈ DCAMWAIT_EVENT_enumerators, e.explicit = true →
          ("DCAMWAIT_CAPEVENT_".data <+: e.name.data → e.value &&& 0x00FF = e.value)
          ∧ ("DCAMWAIT_RECEVENT_".data <+: e.name.data → e.value &&& 0xFF00 = e.value)
          ∧ ("DCAMWAIT_CAPEVENT_".data <+: e.name.data
              ∨ "DCAMWAIT_RECEVENT_".data <+: e.name.data))
      ∧ ∀ S : List Enumerator,
          (∀ x ∈ S, x ∈ DCAMWAIT_EVENT_enumerators.filter (fun e => e.explicit)) →
          ∀ e ∈ DCAMWAIT_EVENT_enumerators.filter (fun e => e.explicit),
            (e.value &&& orAll (S.map Enumerator.value) ≠ 0 ↔ e ∈ S) := by
  refine ⟨by decide, by decide, by decide, ?_⟩
  intro S
  induction S with
  | nil => intro _ e _; simp [orAll]
  | cons x S ih =>
    intro hS e he
    have hx := hS x (List.mem_cons_self x S)
    have ih2 := ih (fun y hy => hS y (List.mem_cons_of_mem x hy)) e he
    have hex := wait_event_and_ne_zero_iff e he x hx
    simp only [List.map_cons, orAll, Nat.and_or_distrib_left, ne_eq, or_eq_zero_iff_both,
      not_and_or, List.mem_cons]
    rw [← ne_eq, ← ne_eq, hex, ih2]

/-- Witness of C11: from the OR of `DCAMWAIT_CAPEVENT_FRAMEREADY` and
`DCAMWAIT_RECEVENT_STOPPED`, the bit of `DCAMWAIT_CAPEVENT_FRAMEREADY` is found set and
that of `DCAMWAIT_CAPEVENT_STOPPED` is not. -/
theorem wait_events_are_distinct_bits_witness :
    DCAMWAIT_CAPEVENT_FRAMEREADY
          &&& orAll [DCAMWAIT_CAPEVENT_FRAMEREADY, DCAMWAIT_RECEVENT_STOPPED] ≠ 0
      ∧ ¬ (DCAMWAIT_CAPEVENT_STOPPED
          &&& orAll [DCAMWAIT_CAPEVENT_FRAMEREADY, DCAMWAIT_RECEVENT_STOPPED] ≠ 0) :=
  have h := wait_events_are_distinct_bits.2.2.2
    [⟨"DCAMWAIT_CAPEVENT_FRAMEREADY", 0x0002, true⟩, ⟨"DCAMWAIT_RECEVENT_STOPPED", 0x0100, true⟩]
    (by decide)
  ⟨(h ⟨"DCAMWAIT_CAPEVENT_FRAMEREADY", 0x0002, true⟩ (by decide)).2 (by decide),
   fun hne => absurd ((h ⟨"DCAMWAIT_CAPEVENT_STOPPED", 0x0010, true⟩ (by decide)).1 hne)
     (by decide)⟩

/-- C12: in `DCAMBUF_FRAME_OPTION`, `VIEW_n` is `n` times `VIEW__STEP` and lies within
`VIEW__MASK` for `n` from 1 to 4, `VIEW_ALL` is 0, `PROC_HIGHCONTRAST` lies within
`PROC__MASK`, and the two masks are disjoint; so for an option word made of a view value
and any processing bits within `PROC__MASK`, the view index is
`(option AND VIEW__MASK) / VIEW__STEP` and the processing bits are `option AND PROC__MASK`. -/
theorem frame_option_fields_are_disjoint :
    (∀ q ∈ [(1, DCAMBUF_FRAME_OPTION__VIEW_1), (2, DCAMBUF_FRAME_OPTION__VIEW_2),
            (3, DCAMBUF_FRAME_OPTION__VIEW_3), (4, DCAMBUF_FRAME_OPTION__VIEW_4)],
        q.2 = q.1 * DCAMBUF_FRAME_OPTION__VIEW__STEP
        ∧ q.2 &&& DCAMBUF_FRAME_OPTION__VIEW__MASK = q.2)
      ∧ DCAMBUF_FRAME_OPTION__VIEW_ALL = 0
      ∧ DCAMBUF_FRAME_OPTION__PROC_HIGHCONTRAST &&& DCAMBUF_FRAME_OPTION__PROC__MASK
          = DCAMBUF_FRAME_OPTION__PROC_HIGHCONTRAST
      ∧ DCAMBUF_FRAME_OPTION__VIEW__MASK &&& DCAMBUF_FRAME_OPTION__PROC__MASK = 0
      ∧ ∀ q ∈ [(0, DCAMBUF_FRAME_OPTION__VIEW_ALL), (1, DCAMBUF_FRAME_OPTION__VIEW_1),
               (2, DCAMBUF_FRAME_OPTION__VIEW_2), (3, DCAMBUF_FRAME_OPTION__VIEW_3),
               (4, DCAMBUF_FRAME_OPTION__VIEW_4)],
          ∀ p : Nat, p &&& DCAMBUF_FRAME_OPTION__PROC__MASK = p →
            ((q.2 ||| p) &&& DCAMBUF_FRAME_OPTION__VIEW__MASK)
                / DCAMBUF_FRAME_OPTION__VIEW__STEP = q.1
            ∧ (q.2 ||| p) &&& DCAMBUF_FRAME_OPTION__PROC__MASK = p := by
  refine ⟨by decide, by decide, by decide, by decide, ?_⟩
  intro q hq p hp
  have hpv : p &&& DCAMBUF_FRAME_OPTION__VIEW__MASK = 0 := by
    rw [← hp, Nat.and_assoc,
      show DCAMBUF_FRAME_OPTION__PROC__MASK &&& DCAMBUF_FRAME_OPTION__VIEW__MASK = 0
        from by decide, Nat.and_zero]
  have hq2 : q.2 &&& DCAMBUF_FRAME_OPTION__VIEW__MASK = q.2
      ∧ q.2 &&& DCAMBUF_FRAME_OPTION__PROC__MASK = 0
      ∧ q.2 / DCAMBUF_FRAME_OPTION__VIEW__STEP = q.1 := by
    revert q
    decide
  rw [Nat.and_distrib_right, Nat.and_distrib_right, hpv, hp, hq2.1, hq2.2.1, Nat.or_zero,
    Nat.zero_or]
  exact ⟨hq2.2.2, rfl⟩

/-- Witness of C12: the option word `VIEW_3 | PROC_HIGHCONTRAST` has view index 3 and
processing bits `PROC_HIGHCONTRAST`. -/
theorem frame_option_fields_are_disjoint_witness :
    ((DCAMBUF_FRAME_OPTION__VIEW_3 ||| DCAMBUF_FRAME_OPTION__PROC_HIGHCONTRAST)
          &&& DCAMBUF_FRAME_OPTION__VIEW__MASK) / DCAMBUF_FRAME_OPTION__VIEW__STEP = 3
      ∧ (DCAMBUF_FRAME_OPTION__VIEW_3 ||| DCAMBUF_FRAME_OPTION__PROC_HIGHCONTRAST)
          &&& DCAMBUF_FRAME_OPTION__PROC__MASK = DCAMBUF_FRAME_OPTION__PROC_HIGHCONTRAST :=
  frame_option_fields_are_disjoint.2.2.2.2 (3, DCAMBUF_FRAME_OPTION__VIEW_3) (by decide)
    DCAMBUF_FRAME_OPTION__PROC_HIGHCONTRAST (by decide)

/-- C13: the view constants `VIEW_1..VIEW_4`, `VIEW__STEP` and `VIEW__MASK` have the same
value in `DCAMREC_FRAME_OPTION`, `DCAMBUF_FRAME_OPTION`, `DCAMBUF_METADATAOPTION` and
`DCAMDATA_OPTION`; `DCAMREC_FRAME_OPTION__VIEW_CURRENT` and
`DCAMBUF_FRAME_OPTION__VIEW_ALL` are 0; the two `PROC_HIGHCONTRAST` values and
`DCAMBUF_PROCTYPE__HIGHCONTRASTMODE` are equal; the two `PROC__MASK` values are equal. -/
theorem option_constants_agree :
    (∀ q ∈ [(DCAMREC_FRAME_OPTION__VIEW_1, DCAMBUF_FRAME_OPTION__VIEW_1,
              DCAMBUF_METADATAOPTION__VIEW_1, DCAMDATA_OPTION__VIEW_1),
            (DCAMREC_FRAME_OPTION__VIEW_2, DCAMBUF_FRAME_OPTION__VIEW_2,
              DCAMBUF_METADATAOPTION__VIEW_2, DCAMDATA_OPTION__VIEW_2),
            (DCAMREC_FRAME_OPTION__VIEW_3, DCAMBUF_FRAME_OPTION__VIEW_3,
              DCAMBUF_METADATAOPTION__VIEW_3, DCAMDATA_OPTION__VIEW_3),
            (DCAMREC_FRAME_OPTION__VIEW_4, DCAMBUF_FRAME_OPTION__VIEW_4,
              DCAMBUF_METADATAOPTION__VIEW_4, DCAMDATA_OPTION__VIEW_4),
            (DCAMREC_FRAME_OPTION__VIEW__STEP, DCAMBUF_FRAME_OPTION__VIEW__STEP,
              DCAMBUF_METADATAOPTION__VIEW__STEP, DCAMDATA_OPTION__VIEW__STEP),
            (DCAMREC_FRAME_OPTION__VIEW__MASK, DCAMBUF_FRAME_OPTION__VIEW__MASK,
              DCAMBUF_METADATAOPTION__VIEW__MASK, DCAMDATA_OPTION__VIEW__MASK)],
        q.1 = q.2.1 ∧ q.2.1 = q.2.2.1 ∧ q.2.2.1 = q.2.2.2)
      ∧ DCAMREC_FRAME_OPTION__VIEW_CURRENT = DCAMBUF_FRAME_OPTION__VIEW_ALL
      ∧ DCAMBUF_FRAME_OPTION__VIEW_ALL = 0
      ∧ DCAMREC_FRAME_OPTION__PROC_HIGHCONTRAST = DCAMBUF_FRAME_OPTION__PROC_HIGHCONTRAST
      ∧ DCAMBUF_FRAME_OPTION__PROC_HIGHCONTRAST = DCAMBUF_PROCTYPE__HIGHCONTRASTMODE
      ∧ DCAMREC_FRAME_OPTION__PROC__MASK = DCAMBUF_FRAME_OPTION__PROC__MASK := by
  decide

/-- Witness of C13 at `VIEW__MASK`: the four enumerations give it the same value. -/
theorem option_constants_agree_witness :
    DCAMREC_FRAME_OPTION__VIEW__MASK = DCAMBUF_FRAME_OPTION__VIEW__MASK
      ∧ DCAMBUF_FRAME_OPTION__VIEW__MASK = DCAMBUF_METADATAOPTION__VIEW__MASK
      ∧ DCAMBUF_METADATAOPTION__VIEW__MASK = DCAMDATA_OPTION__VIEW__MASK :=
  option_constants_agree.1
    (DCAMREC_FRAME_OPTION__VIEW__MASK, DCAMBUF_FRAME_OPTION__VIEW__MASK,
      DCAMBUF_METADATAOPTION__VIEW__MASK, DCAMDATA_OPTION__VIEW__MASK) (by decide)

/-- C14: in `DCAMDATA_REGIONTYPE` and in `DCAMDATA_LUTTYPE`, `BODYMASK` and
`ATTRIBUTEMASK` are disjoint and together cover `0xFFFFFFFF`, and `ATTRIBUTEMASK` is
`DCAMDATA_ATTRIBUTE__MASK`; the type-body enumerators lie within `BODYMASK`; the
attribute enumerators are powers of two within `ATTRIBUTEMASK`, and within each
enumeration no two of them share a bit. -/
theorem data_type_masks_partition :
    (∀ q ∈ [(DCAMDATA_REGIONTYPE__BODYMASK, DCAMDATA_REGIONTYPE__ATTRIBUTEMASK),
            (DCAMDATA_LUTTYPE__BODYMASK, DCAMDATA_LUTTYPE__ATTRIBUTEMASK)],
        q.1 &&& q.2 = 0 ∧ q.1 ||| q.2 = 0xFFFFFFFF ∧ q.2 = DCAMDATA_ATTRIBUTE__MASK)
      ∧ (∀ v ∈ [DCAMDATA_REGIONTYPE__BYTEMASK, DCAMDATA_REGIONTYPE__RECT16ARRAY],
          v &&& DCAMDATA_REGIONTYPE__BODYMASK = v)
      ∧ (∀ v ∈ [DCAMDATA_LUTTYPE__SEGMENTED_LINEAR, DCAMDATA_LUTTYPE__MONO16],
          v &&& DCAMDATA_LUTTYPE__BODYMASK = v)
      ∧ (∀ v ∈ [DCAMDATA_REGIONTYPE__ACCESSREADY, DCAMDATA_REGIONTYPE__ACCESSBUSY,
                DCAMDATA_REGIONTYPE__HASVIEW],
          (∃ k < 32, v = 2 ^ k) ∧ v &&& DCAMDATA_REGIONTYPE__ATTRIBUTEMASK = v)
      ∧ (∀ v ∈ [DCAMDATA_LUTTYPE__ACCESSREADY, DCAMDATA_LUTTYPE__ACCESSBUSY],
          (∃ k < 32, v = 2 ^ k) ∧ v &&& DCAMDATA_LUTTYPE__ATTRIBUTEMASK = v)
      ∧ (∀ v ∈ [DCAMDATA_ATTRIBUTE__ACCESSREADY, DCAMDATA_ATTRIBUTE__ACCESSBUSY,
                DCAMDATA_ATTRIBUTE__HASVIEW],
          (∃ k < 32, v = 2 ^ k) ∧ v &&& DCAMDATA_ATTRIBUTE__MASK = v)
      ∧ DCAMDATA_REGIONTYPE__ACCESSREADY &&& DCAMDATA_REGIONTYPE__ACCESSBUSY = 0
      ∧ DCAMDATA_REGIONTYPE__ACCESSREADY &&& DCAMDATA_REGIONTYPE__HASVIEW = 0
      ∧ DCAMDATA_REGIONTYPE__ACCESSBUSY &&& DCAMDATA_REGIONTYPE__HASVIEW = 0
      ∧ DCAMDATA_LUTTYPE__ACCESSREADY &&& DCAMDATA_LUTTYPE__ACCESSBUSY = 0 := by
  decide

/-- Witness of C14 at `DCAMDATA_REGIONTYPE__HASVIEW`: a power of two inside
`DCAMDATA_REGIONTYPE__ATTRIBUTEMASK`. -/
theorem data_type_masks_partition_witness :
    (∃ k < 32, DCAMDATA_REGIONTYPE__HASVIEW = 2 ^ k)
      ∧ DCAMDATA_REGIONTYPE__HASVIEW &&& DCAMDATA_REGIONTYPE__ATTRIBUTEMASK
          = DCAMDATA_REGIONTYPE__HASVIEW :=
  data_type_masks_partition.2.2.2.1 DCAMDATA_REGIONTYPE__HASVIEW (by decide)

/-! ## Ranges and distinctness of result codes -/

/-- C15: every code between `DCAMERR_INITOPTION_COLLISION_BASE` and
`DCAMERR_INITOPTION_COLLISION_MAX` (as unsigned values) is a 32-bit code for which
`failed` returns nonzero, and its collision index `c - BASE` is at most `0x3FFF`; the
declared enumerators with a value in that range are the two bounds themselves. -/
theorem collision_range_codes_fail (c : Nat)
    (hlo : DCAMERR_INITOPTION_COLLISION_BASE ≤ c)
    (hhi : c ≤ DCAMERR_INITOPTION_COLLISION_MAX) :
    c < 2 ^ 32
      ∧ failed c ≠ 0
      ∧ c - DCAMERR_INITOPTION_COLLISION_BASE ≤ 0x3FFF
      ∧ DCAMERR_enumerators.filter (fun e =>
            decide (DCAMERR_INITOPTION_COLLISION_BASE ≤ e.2
              ∧ e.2 ≤ DCAMERR_INITOPTION_COLLISION_MAX))
          = [("DCAMERR_INITOPTION_COLLISION_BASE", DCAMERR_INITOPTION_COLLISION_BASE),
             ("DCAMERR_INITOPTION_COLLISION_MAX", DCAMERR_INITOPTION_COLLISION_MAX)] := by
  unfold DCAMERR_INITOPTION_COLLISION_BASE at hlo
  unfold DCAMERR_INITOPTION_COLLISION_MAX at hhi
  refine ⟨by omega, ?_, ?_, by decide⟩
  · have hneg : toInt32 c < 0 := by
      unfold toInt32
      split <;> omega
    unfold failed
    simp [hneg]
  · unfold DCAMERR_INITOPTION_COLLISION_BASE
    omega

/-- Witness of C15 at the code `0xa401C005`, collision index 5. -/
theorem collision_range_codes_fail_witness :
    failed 0xa401C005 ≠ 0 ∧ 0xa401C005 - DCAMERR_INITOPTION_COLLISION_BASE ≤ 0x3FFF :=
  have h := collision_range_codes_fail 0xa401C005 (by decide) (by decide)
  ⟨h.2.1, h.2.2.1⟩

/-- C16: the declared enumerators with a value in `0x84000100 .. 0x840001FF` are exactly
`DCAMERR_INVALIDMEMBER_n` for `n` in 3, 5, 7, 8, 9, each with value `0x84000100 + n`; so
for each of them `value - 0x84000100` is the member index. -/
theorem invalid_member_codes :
    DCAMERR_enumerators.filter (fun e => decide (0x84000100 ≤ e.2 ∧ e.2 ≤ 0x840001FF))
        = [("DCAMERR_INVALIDMEMBER_3", 0x84000100 + 3),
           ("DCAMERR_INVALIDMEMBER_5", 0x84000100 + 5),
           ("DCAMERR_INVALIDMEMBER_7", 0x84000100 + 7),
           ("DCAMERR_INVALIDMEMBER_8", 0x84000100 + 8),
           ("DCAMERR_INVALIDMEMBER_9", 0x84000100 + 9)]
      ∧ DCAMERR_enumerators.filter (fun e => decide ("DCAMERR_INVALIDMEMBER_".data <+: e.1.data))
        = DCAMERR_enumerators.filter (fun e => decide (0x84000100 ≤ e.2 ∧ e.2 ≤ 0x840001FF))
      ∧ (DCAMERR_enumerators.filter
            (fun e => decide (0x84000100 ≤ e.2 ∧ e.2 ≤ 0x840001FF))).map
          (fun e => e.2 - 0x84000100) = [3, 5, 7, 8, 9] := by
  decide

/-- C17: `TIMESTAMPS` and `FRAMESTAMPS` have the same value in `DCAMBUF_METADATAKIND` and
in `DCAMREC_METADATAKIND`, and the four explicitly valued enumerators of
`DCAMREC_METADATAKIND` are powers of two, pairwise without a common bit. -/
theorem metadata_kinds_agree :
    DCAMBUF_METADATAKIND_TIMESTAMPS = DCAMREC_METADATAKIND_TIMESTAMPS
      ∧ DCAMBUF_METADATAKIND_FRAMESTAMPS = DCAMREC_METADATAKIND_FRAMESTAMPS
      ∧ (∀ v ∈ [DCAMREC_METADATAKIND_USERDATATEXT, DCAMREC_METADATAKIND_USERDATABIN,
                DCAMREC_METADATAKIND_TIMESTAMPS, DCAMREC_METADATAKIND_FRAMESTAMPS],
          ∃ k < 32, v = 2 ^ k)
      ∧ [DCAMREC_METADATAKIND_USERDATATEXT, DCAMREC_METADATAKIND_USERDATABIN,
          DCAMREC_METADATAKIND_TIMESTAMPS, DCAMREC_METADATAKIND_FRAMESTAMPS].Pairwise
            (fun a b => a ≠ b ∧ a &&& b = 0) := by
  decide

/-- Witness of C17 at `DCAMREC_METADATAKIND_TIMESTAMPS`, the power of two `2 ^ 16`. -/
theorem metadata_kinds_agree_witness : ∃ k < 32, DCAMREC_METADATAKIND_TIMESTAMPS = 2 ^ k :=
  metadata_kinds_agree.2.2.1 DCAMREC_METADATAKIND_TIMESTAMPS (by decide)

/-- Counterexample to C18 as stated: `DCAMERR_NONE` (line 201) is a declared enumerator
with value 0; `failed` returns 0 for it although 0 is not strictly positive, so the sign
test and the positivity test do not agree on every declared code. -/
theorem failed_vs_positive_counterexample :
    ("DCAMERR_NONE", DCAMERR_NONE) ∈ DCAMERR_enumerators
      ∧ failed DCAMERR_NONE = 0
      ∧ ¬ (0 < toInt32 DCAMERR_NONE)
      ∧ ¬ (∀ e ∈ DCAMERR_enumerators, failed e.2 = 0 ↔ 0 < toInt32 e.2) := by
  refine ⟨by decide, by decide, by decide, fun h => ?_⟩
  have h0 := (h ("DCAMERR_NONE", DCAMERR_NONE) (by decide)).1 (by decide)
  revert h0
  decide

/-- C18 amended: for every declared enumerator, `failed` returns 0 exactly when the code
is not negative as a signed 32-bit integer; and for every declared enumerator other than
`DCAMERR_NONE`, `failed` returns 0 exactly when the code is strictly positive. -/
theorem failed_agrees_with_positive_except_none :
    ∀ e ∈ DCAMERR_enumerators,
      (failed e.2 = 0 ↔ 0 ≤ toInt32 e.2)
      ∧ (e.1 ≠ "DCAMERR_NONE" → (failed e.2 = 0 ↔ 0 < toInt32 e.2)) := by
  decide

/-- Witness of C18 amended at `DCAMERR_TIMEOUT = 0x80000106`: it fails and is not
positive. -/
theorem failed_agrees_with_positive_except_none_witness :
    (failed 0x80000106 = 0 ↔ 0 < toInt32 0x80000106) :=
  (failed_agrees_with_positive_except_none ("DCAMERR_TIMEOUT", 0x80000106) (by decide)).2
    (by decide)

/-- C19: the values of the enumerators of `DCAMERR` are pairwise distinct and fit in 32
bits, so two declared enumerators with the same value are the same enumerator. -/
theorem error_code_values_distinct :
    (DCAMERR_enumerators.map (fun e => e.2)).Nodup
      ∧ (∀ e ∈ DCAMERR_enumerators, e.2 < 2 ^ 32)
      ∧ ∀ e ∈ DCAMERR_enumerators, ∀ f ∈ DCAMERR_enumerators, e.2 = f.2 → e = f := by
  have hnd : (DCAMERR_enumerators.map (fun e => e.2)).Nodup := by decide
  refine ⟨hnd, by decide, fun e he f hf hef => ?_⟩
  exact List.inj_on_of_nodup_map hnd he hf hef

/-- Witness of C19: `DCAMERR_ABORT` and `DCAMERR_BUSY` are different declared
enumerators, so their values `0x80000102` and `0x80000101` differ. -/
theorem error_code_values_distinct_witness :
    ("DCAMERR_ABORT", 0x80000102) ∈ DCAMERR_enumerators
      ∧ ("DCAMERR_BUSY", 0x80000101) ∈ DCAMERR_enumerators
      ∧ ((0x80000102 : Nat) = 0x80000101 →
          (("DCAMERR_ABORT", 0x80000102) : String × Nat) = ("DCAMERR_BUSY", 0x80000101)) :=
  ⟨by decide, by decide,
    error_code_values_distinct.2.2 ("DCAMERR_ABORT", 0x80000102) (by decide)
      ("DCAMERR_BUSY", 0x80000101) (by decide)⟩

/-! ## Total sizes with 8-byte pointers -/

/-- C20: with 8-byte pointers, in every configuration each declared structure has a
layout whose total size is the sum of its members' sizes plus 4 bytes for
`DCAMDEV_STRING`, `DCAMPROP_VALUETEXT`, `DCAMBUF_ATTACH`, `DCAMREC_OPEN`,
`DCAMREC_OPENA`, `DCAMREC_OPENW` and `DCAM_FRAMESTAMPBLOCK`, and plus nothing for every
other structure; the sizes named in the claim are the computed ones. -/
theorem trailing_padding_with_8_byte_pointers (cfg : BuildConfig) :
    (∀ d ∈ structs cfg,
        (layoutOf 8 (structs cfg) d.tag).isSome = true
        ∧ (layoutOf 8 (structs cfg) d.tag).map Layout.size
            = (memberSizes 8 (structs cfg) d).map (fun ss =>
                ss.sum + (if d.tag ∈ ["DCAMDEV_STRING", "DCAMPROP_VALUETEXT", "DCAMBUF_ATTACH",
                                       "DCAMREC_OPEN", "DCAMREC_OPENA", "DCAMREC_OPENW",
                                       "DCAM_FRAMESTAMPBLOCK"] then 4 else 0)))
      ∧ (∀ q ∈ [("DCAMDEV_STRING", 24), ("DCAMPROP_VALUETEXT", 32), ("DCAMBUF_ATTACH", 24),
                ("DCAM_FRAMESTAMPBLOCK", 40), ("DCAMAPI_INIT", 32), ("DCAMDEV_OPEN", 16),
                ("DCAMPROP_ATTR", 88), ("DCAMBUF_FRAME", 64), ("DCAMWAIT_OPEN", 24),
                ("DCAMWAIT_START", 16), ("DCAM_TIMESTAMP", 8)],
          (layoutOf 8 (structs cfg) q.1).map Layout.size = some q.2)
      ∧ (∀ d ∈ structs cfg, d.tag ∈ ["DCAMREC_OPEN", "DCAMREC_OPENA", "DCAMREC_OPENW"] →
          (layoutOf 8 (structs cfg) d.tag).map Layout.size = some 64)
      ∧ (structs cfg).filter (fun d => d.tag ∈ ["DCAMREC_OPEN", "DCAMREC_OPENA", "DCAMREC_OPENW"])
          = (if isWindows cfg then [DCAMREC_OPENA, DCAMREC_OPENW] else [DCAMREC_OPEN]) := by
  unfold structs
  generalize isWindows cfg = w
  cases w <;> decide

/-- Witness of C20 at `DCAM_FRAMESTAMPBLOCK` on a non-Windows build: members of 24, 8 and
4 bytes, total size 40. -/
theorem trailing_padding_with_8_byte_pointers_witness :
    (memberSizes 8 (structs ⟨false, false, false, false, false⟩) DCAM_FRAMESTAMPBLOCK)
        = some [24, 8, 4]
      ∧ (layoutOf 8 (structs ⟨false, false, false, false, false⟩) "DCAM_FRAMESTAMPBLOCK").map
          Layout.size = some (36 + 4) :=
  have h := ((trailing_padding_with_8_byte_pointers ⟨false, false, false, false, false⟩).1
    DCAM_FRAMESTAMPBLOCK (by decide)).2
  ⟨by decide, h.trans (by decide)⟩

end Dcam
